import Mathlib

set_option maxRecDepth 100000

/-!
Verification development for the ECU File Organizer metadata-extraction
engine (src/ecu_file_organizer/bin_reader.py, constants.py, parser.py).

The firmware image is an opaque byte blob scanned with regular expressions
over bytes.  We embed the byte patterns as a small regex AST together with
a fueled backtracking matcher mirroring the semantics of Python's `re`
module over `bytes` (leftmost match, greedy repetition with backtracking,
single-byte negative lookarounds, non-overlapping `finditer`).
-/

/-- A byte of the scanned firmware image. -/
abbrev Byte := Nat

def btw (lo hi n : Byte) : Bool := Nat.ble lo n && Nat.ble n hi

/-- Python `\d` over bytes. -/
def isDig (n : Byte) : Bool := btw 48 57 n

/-- `[A-Z]` over bytes. -/
def isUpB (n : Byte) : Bool := btw 65 90 n

/-- `[a-z]` over bytes. -/
def isLoB (n : Byte) : Bool := btw 97 122 n

/-- `[0-9A-Za-z]` over bytes. -/
def isAlnumB (n : Byte) : Bool := isDig n || isUpB n || isLoB n

/-- Python `\w` over bytes: `[0-9A-Za-z_]`. -/
def isWordB (n : Byte) : Bool := isAlnumB n || n == 95

/-- Python `\s` over bytes: space, tab, newline, CR, FF, VT. -/
def isSpaceB (n : Byte) : Bool := n == 32 || btw 9 13 n

/-- `[A-Z0-9]` over bytes. -/
def isUpDigB (n : Byte) : Bool := isUpB n || isDig n

/-- Regex AST over bytes.  Bounded repetitions are expanded with
`reN`/`reOptN`; `rep` is unbounded greedy repetition with a minimum. -/
inductive RE where
  | eps : RE
  | chr : (Byte → Bool) → RE
  | cat : RE → RE → RE
  | alt : RE → RE → RE
  | rep : RE → Nat → RE
  | grp : Nat → RE → RE
  | nlb : (Byte → Bool) → RE
  | nla : (Byte → Bool) → RE

def reSeq (l : List RE) : RE := l.foldr RE.cat RE.eps

def reAlts : List RE → RE
  | [] => RE.eps
  | [a] => a
  | a :: rest => RE.alt a (reAlts rest)

def lit (c : Char) : RE := RE.chr (fun b => b == c.toNat)

def litS (s : String) : RE := reSeq (s.toList.map lit)

/-- Character class given by an explicit set of characters. -/
def cls (s : String) : RE := RE.chr (fun b => (s.toList.map Char.toNat).contains b)

/-- Exactly `n` copies of `a`. -/
def reN (a : RE) : Nat → RE
  | 0 => RE.eps
  | n + 1 => RE.cat a (reN a n)

/-- Greedy `a{0,n}`. -/
def reOptN (a : RE) : Nat → RE
  | 0 => RE.eps
  | n + 1 => RE.alt (RE.cat a (reOptN a n)) RE.eps

/-- Greedy `a{lo,hi}`. -/
def reB (a : RE) (lo hi : Nat) : RE := RE.cat (reN a lo) (reOptN a (hi - lo))

/-- Greedy `a+`. -/
def rePlus (a : RE) : RE := RE.rep a 1

/-- Greedy `a*`. -/
def reStar (a : RE) : RE := RE.rep a 0

/-- Greedy `a?`. -/
def reOpt (a : RE) : RE := reOptN a 1

def reSize : RE → Nat
  | .eps => 1
  | .chr _ => 1
  | .cat a b => reSize a + reSize b + 1
  | .alt a b => reSize a + reSize b + 1
  | .rep a _ => reSize a + 2
  | .grp _ a => reSize a + 1
  | .nlb _ => 1
  | .nla _ => 1

/-- Captured groups: group index paired with the captured bytes
(most recent capture first, as Python keeps the last repetition). -/
abbrev Caps := List (Nat × List Byte)

/-- Matcher state on success: last consumed byte (for lookbehind of a
subsequent non-overlapping match), remaining suffix, captures. -/
abbrev MState := Option Byte × List Byte × Caps

/-- Fueled CPS backtracking matcher.  `prev` is the byte just before the
current position (for one-byte negative lookbehind), `suf` the remaining
input. -/
def mrun (fuel : Nat) (re : RE) (prev : Option Byte) (suf : List Byte) (caps : Caps)
    (k : Option Byte → List Byte → Caps → Option MState) : Option MState :=
  match fuel with
  | 0 => none
  | fuel + 1 =>
    match re with
    | .eps => k prev suf caps
    | .chr p =>
      match suf with
      | [] => none
      | c :: rest => if p c then k (some c) rest caps else none
    | .cat a b => mrun fuel a prev suf caps (fun p2 s2 c2 => mrun fuel b p2 s2 c2 k)
    | .alt a b =>
      match mrun fuel a prev suf caps k with
      | some st => some st
      | none => mrun fuel b prev suf caps k
    | .rep a min =>
      match min with
      | m + 1 => mrun fuel a prev suf caps (fun p2 s2 c2 => mrun fuel (.rep a m) p2 s2 c2 k)
      | 0 =>
        match mrun fuel a prev suf caps (fun p2 s2 c2 =>
            if s2.length == suf.length then none
            else mrun fuel (.rep a 0) p2 s2 c2 k) with
        | some st => some st
        | none => k prev suf caps
    | .grp n a =>
      mrun fuel a prev suf caps
        (fun p2 s2 c2 => k p2 s2 ((n, suf.take (suf.length - s2.length)) :: c2))
    | .nlb p =>
      match prev with
      | some c => if p c then none else k prev suf caps
      | none => k prev suf caps
    | .nla p =>
      match suf with
      | c :: _ => if p c then none else k prev suf caps
      | [] => k prev suf caps

/-- Fuel bound: recursion depth never exceeds pattern size times input
length, so this is enough for the matcher to behave as the untruncated
backtracking search. -/
def bigFuel (re : RE) (suf : List Byte) : Nat := (reSize re + 2) * (suf.length + 2) + 64

/-- Leftmost-match search: try each start position from left to right. -/
def searchFrom (re : RE) (prev : Option Byte) (suf : List Byte) : Option MState :=
  match mrun (bigFuel re suf) re prev suf [] (fun p s c => some (p, s, c)) with
  | some st => some st
  | none =>
    match suf with
    | [] => none
    | c :: rest => searchFrom re (some c) rest

/-- First capture named `n` (Python keeps the most recent repetition). -/
def mgroup (caps : Caps) (n : Nat) : List Byte :=
  match caps.find? (fun p => p.1 == n) with
  | some p => p.2
  | none => []

/-- `re.search`: leftmost match; group 0 is the whole match. -/
def reSearch (re : RE) (data : List Byte) : Option Caps :=
  match searchFrom (RE.grp 0 re) none data with
  | some (_, _, caps) => some caps
  | none => none

/-- `re.match`: anchored at the start of the data. -/
def reMatchStart (re : RE) (data : List Byte) : Option Caps :=
  match mrun (bigFuel re data) (RE.grp 0 re) none data [] (fun p s c => some (p, s, c)) with
  | some (_, _, caps) => some caps
  | none => none

/-- Non-overlapping successive matches (`re.finditer`), resuming at each
match end, advancing by one byte over an empty match. -/
def finditerAux (re : RE) (fuel : Nat) (prev : Option Byte) (suf : List Byte) : List Caps :=
  match fuel with
  | 0 => []
  | fuel + 1 =>
    match searchFrom (RE.grp 0 re) prev suf with
    | none => []
    | some (p2, s2, caps) =>
      if (mgroup caps 0).length == 0 then
        caps :: (match s2 with
          | [] => []
          | c :: r => finditerAux re fuel (some c) r)
      else caps :: finditerAux re fuel p2 s2

def finditerRe (re : RE) (data : List Byte) : List Caps :=
  finditerAux re (data.length + 1) none data

/-- `re.findall` on a single-group pattern: the list of group-1 spans. -/
def findall1 (re : RE) (data : List Byte) : List (List Byte) :=
  (finditerRe re data).map (fun c => mgroup c 1)

/-- `bytes.decode('ascii')`: fails (is `none`) outside plain ASCII. -/
def decodeAscii (l : List Byte) : Option String :=
  if l.all (fun b => Nat.blt b 128) then some (String.mk (l.map Char.ofNat)) else none

/-- Bytes of an ASCII string literal, for concrete test buffers. -/
def strBytes (s : String) : List Byte := s.toList.map Char.toNat

/-- Python exceptions that can escape the extraction engine. -/
inductive PyErr where
  | keyError : String → PyErr
deriving DecidableEq, Repr

/-- Python `dict[key]` on the pattern tables: raises `KeyError` when the
key is absent. -/
def dictGet (d : List (String × RE)) (k : String) : Except PyErr RE :=
  match d.find? (fun p => p.1 == k) with
  | some p => .ok p.2
  | none => .error (.keyError k)

/-! ## Pattern catalog (constants.py)

Each byte-regex from `constants.py` is transcribed into the `RE` AST,
keeping alternation order and greedy bounded repetitions. -/

def dig : RE := RE.chr isDig
def up : RE := RE.chr isUpB
def updig : RE := RE.chr isUpDigB
def wch : RE := RE.chr isWordB
def sp : RE := RE.chr isSpaceB
def nonNulSlash : RE := RE.chr (fun b => !(b == 0 || b == 47))
def nonNul : RE := RE.chr (fun b => !(b == 0))
def digDot : RE := RE.chr (fun b => isDig b || b == 46)
def digDotComma : RE := RE.chr (fun b => isDig b || b == 46 || b == 44)

/-- `(10[3-9]\d{7})([A-Z]\d{3}[A-Z0-9]{2,6})` -/
def bosch_sw_variant : RE :=
  reSeq [RE.grp 1 (reSeq [litS "10", cls "3456789", reN dig 7]),
         RE.grp 2 (reSeq [up, reN dig 3, reB updig 2 6])]

/-- `(10[3-9]\d{7})` -/
def bosch_sw_number_re : RE := RE.grp 1 (reSeq [litS "10", cls "3456789", reN dig 7])

/-- `10SW(\d{6})` -/
def bosch_10sw : RE := reSeq [litS "10SW", RE.grp 1 (reN dig 6)]

/-- `(MDG1_MD1CS\d{3}|MD1CS\d{3}|EDC\d+_[A-Z]?\d+|MED\d+_[A-Z]?\d+|MEVD\d+_[A-Z]?\d+|MG1_[A-Z]{1,2}\d+)` -/
def bosch_ecu_type : RE := RE.grp 1 (reAlts [
  reSeq [litS "MDG1_MD1CS", reN dig 3],
  reSeq [litS "MD1CS", reN dig 3],
  reSeq [litS "EDC", rePlus dig, lit '_', reOpt up, rePlus dig],
  reSeq [litS "MED", rePlus dig, lit '_', reOpt up, rePlus dig],
  reSeq [litS "MEVD", rePlus dig, lit '_', reOpt up, rePlus dig],
  reSeq [litS "MG1_", reB up 1 2, rePlus dig]])

/-- `(\d+/\d+/((?:MDG1|EDC17|MED17|MG1|MD1|MEVD|ME)[^\x00/]{2,30})/(\d+)/([^\x00/]{2,20})//([^\x00/]{0,20})/)` -/
def bosch_path : RE := RE.grp 1 (reSeq [
  rePlus dig, lit '/', rePlus dig, lit '/',
  RE.grp 2 (reSeq [reAlts [litS "MDG1", litS "EDC17", litS "MED17", litS "MG1",
                           litS "MD1", litS "MEVD", litS "ME"],
                   reB nonNulSlash 2 30]),
  lit '/', RE.grp 3 (rePlus dig), lit '/',
  RE.grp 4 (reB nonNulSlash 2 20), litS "//",
  RE.grp 5 (reB nonNulSlash 0 20), lit '/'])

/-- `(?<!\d)(02[68]1\d{6})(?!\d)` -/
def bosch_hw_number : RE :=
  reSeq [RE.nlb isDig, RE.grp 1 (reSeq [litS "02", cls "68", lit '1', reN dig 6]), RE.nla isDig]

/-- `(?:EDC|MED|MEVD|MG1|MD1|MDG1)` used with `re.match` on the ecu_type string -/
def boschEcuPrefix : RE :=
  reAlts [litS "EDC", litS "MED", litS "MEVD", litS "MG1", litS "MD1", litS "MDG1"]

def BOSCH_PATTERNS : List (String × RE) := [
  ("sw_variant", bosch_sw_variant), ("sw_number", bosch_sw_number_re),
  ("10sw", bosch_10sw), ("ecu_type", bosch_ecu_type),
  ("path", bosch_path), ("hw_number", bosch_hw_number)]

/-- `(?:SID|EMS|SIM|PCR)[\d.]{2,5}` -/
def continental_ecu_type : RE :=
  reSeq [reAlts [litS "SID", litS "EMS", litS "SIM", litS "PCR"], reB digDot 2 5]

/-- `(CA[RF][A-Z0-9]{5})` -/
def continental_cal_id : RE := RE.grp 1 (reSeq [litS "CA", cls "RF", reN updig 5])

/-- `CA[RF][A-Z0-9]{5}[A-Z0-9]{6,8}(\d{8}[A-Z]{2})` -/
def continental_cal_block : RE :=
  reSeq [litS "CA", cls "RF", reN updig 5, reB updig 6 8,
         RE.grp 1 (reSeq [reN dig 8, reN up 2])]

def CONTINENTAL_PATTERNS : List (String × RE) := [
  ("ecu_type", continental_ecu_type), ("cal_id", continental_cal_id),
  ("cal_block", continental_cal_block)]

/-- `(?<![A-Z0-9])([A-Z0-9]{4}-[A-Z0-9]{5,6}-[A-Z]{2})(?![A-Z0-9])` -/
def ford_part_number : RE :=
  reSeq [RE.nlb isUpDigB,
         RE.grp 1 (reSeq [reN updig 4, lit '-', reB updig 5 6, lit '-', reN up 2]),
         RE.nla isUpDigB]

/-- `(?:Ford Motor Co\.\s*\d{4})([A-Z]{2}[A-Z0-9]{4}-[A-Z0-9]{5,6}-[A-Z]{2})` -/
def ford_calibration : RE :=
  reSeq [litS "Ford Motor Co.", reStar sp, reN dig 4,
         RE.grp 1 (reSeq [reN up 2, reN updig 4, lit '-', reB updig 5 6, lit '-', reN up 2])]

def FORD_PATTERNS : List (String × RE) := [
  ("part_number", ford_part_number), ("calibration", ford_calibration)]

/-- `(CRD\d?)-(\d{3})-([A-Z0-9]+)` -/
def delphi_crd : RE :=
  reSeq [RE.grp 1 (reSeq [litS "CRD", reOpt dig]), lit '-',
         RE.grp 2 (reN dig 3), lit '-', RE.grp 3 (rePlus updig)]

/-- `CRD\d?-\d{3}-[A-Z0-9]+-[A-Z0-9]+-(\d{2,3})[kK][wW]` -/
def delphi_crd_power : RE :=
  reSeq [litS "CRD", reOpt dig, lit '-', reN dig 3, lit '-', rePlus updig, lit '-',
         rePlus updig, lit '-', RE.grp 1 (reB dig 2 3), cls "kK", cls "wW"]

/-- `([A-Z0-9]{4,15})_DELIV_\d` -/
def delphi_deliv : RE := reSeq [RE.grp 1 (reB updig 4 15), litS "_DELIV_", dig]

/-- `(?<!\d)(28[2-4]\d{5})(?!\d)` -/
def delphi_hw_part : RE :=
  reSeq [RE.nlb isDig, RE.grp 1 (reSeq [litS "28", cls "234", reN dig 5]), RE.nla isDig]

/-- The table in constants.py has exactly these four keys; `deliv_ext`,
looked up by `_extract_delphi`, is absent. -/
def DELPHI_PATTERNS : List (String × RE) := [
  ("crd", delphi_crd), ("crd_power", delphi_crd_power),
  ("deliv", delphi_deliv), ("hw_part", delphi_hw_part)]

/-- `(S\d{9}[A-Z]\d)` -/
def delco_hw_part : RE := RE.grp 1 (reSeq [lit 'S', reN dig 9, up, dig])

/-- `(?<![0-9])(\d{8}[A-Z]{2})(?![A-Z0-9])` -/
def delco_gm_cal : RE :=
  reSeq [RE.nlb isDig, RE.grp 1 (reSeq [reN dig 8, reN up 2]), RE.nla isUpDigB]

def DELCO_PATTERNS : List (String × RE) := [
  ("hw_part", delco_hw_part), ("gm_cal", delco_gm_cal)]

/-- `(?<![A-Z0-9])(A\d{10})(?!\d)` -/
def mercedes_part_number : RE :=
  reSeq [RE.nlb isUpDigB, RE.grp 1 (reSeq [lit 'A', reN dig 10]), RE.nla isDig]

/-- `(A\d{10})\s+(A\d{10})` -/
def mercedes_pair : RE :=
  reSeq [RE.grp 1 (reSeq [lit 'A', reN dig 10]), rePlus sp,
         RE.grp 2 (reSeq [lit 'A', reN dig 10])]

def MERCEDES_PATTERNS : List (String × RE) := [
  ("part_number", mercedes_part_number), ("pair", mercedes_pair)]

/-- `(?<![0-9A-Za-z])(\d{2,3}[A-Z]\d{6}[A-Z]{0,3})(?![0-9A-Za-z])` -/
def generic_oem_number : RE :=
  reSeq [RE.nlb isAlnumB,
         RE.grp 1 (reSeq [reB dig 2 3, up, reN dig 6, reB up 0 3]),
         RE.nla isAlnumB]

/-- `([RVLI]\d\s+[\d.,]+[lL]\s+\w{2,6})\s+([A-Z]{3,4})` -/
def generic_engine : RE :=
  reSeq [RE.grp 1 (reSeq [cls "RVLI", dig, rePlus sp, rePlus digDotComma, cls "lL",
                          rePlus sp, reB wch 2 6]),
         rePlus sp, RE.grp 2 (reB up 3 4)]

/-- `([RVLI]\d\s+[\d.,]+[lL]\s+[A-Z]{2,6})` -/
def generic_engine_type : RE :=
  RE.grp 1 (reSeq [cls "RVLI", dig, rePlus sp, rePlus digDotComma, cls "lL",
                   rePlus sp, reB up 2 6])

/-- `([A-Z]{4})J623` -/
def generic_vag_engine : RE := reSeq [RE.grp 1 (reN up 4), litS "J623"]

/-- `(?:FOS|PSAAPP|PSA_)[^\x00]{0,80}(\d{10})` -/
def generic_psa_part : RE :=
  reSeq [reAlts [litS "FOS", litS "PSAAPP", litS "PSA_"], reB nonNul 0 80,
         RE.grp 1 (reN dig 10)]

/-- The table in constants.py has exactly these five keys; `bosch_path_oem`
and `hex_oem`, looked up by `_extract_generic`, are absent. -/
def GENERIC_PATTERNS : List (String × RE) := [
  ("oem_number", generic_oem_number), ("engine", generic_engine),
  ("engine_type", generic_engine_type), ("vag_engine", generic_vag_engine),
  ("psa_part", generic_psa_part)]

/-- `(?<![0-9A-Za-z])(\d{4,5})(?![0-9A-Za-z])` from `_find_sw_version` -/
def version_pattern : RE :=
  reSeq [RE.nlb isAlnumB, RE.grp 1 (reB dig 4 5), RE.nla isAlnumB]

/-- Modelled from the spec: `TRANSTRON_PATTERNS` is imported by
bin_reader.py but missing from constants.py.  The spec says the Transtron
extractor "first tests for a brand-identifying marker (e.g. a copyright
string) and exits immediately if absent".  We model the copyright marker
as a literal brand string. -/
def transtron_copyright : RE := litS "TRANSTRON"

/-- Modelled from the spec: engine code + part number pattern of the
missing `TRANSTRON_PATTERNS`, shaped after the docstring example
"4JK1                z98250658". -/
def transtron_engine_part : RE :=
  reSeq [RE.grp 1 (reSeq [dig, reN up 2, dig]), rePlus sp,
         RE.grp 2 (reSeq [RE.chr isLoB, reN dig 8])]

/-- Modelled from the spec: BMW engine-code pattern of the missing
`BMW_PATTERNS`, shaped after the docstring example "#B47D20O0-F10". -/
def bmw_engine : RE :=
  reSeq [lit '#', RE.grp 1 (reSeq [up, dig, dig, up, dig, dig, up, dig]), lit '-']

/-! ## bin_reader.py: the metadata record and the brand extractors -/

/-- The accumulating result dict of `read_bin_metadata`, plus the
transient `_is_delphi_crd` flag smuggled through it. -/
structure MetadataRecord where
  sw_version : String
  bosch_sw_number : String
  bosch_variant : String
  oem_hw_number : String
  oem_sw_number : String
  ecu_type : String
  engine_type : String
  engine_code : String
  is_delphi_crd : Bool
deriving DecidableEq, Repr

/-- The initial all-empty record. -/
def rec0 : MetadataRecord :=
  { sw_version := "", bosch_sw_number := "", bosch_variant := "",
    oem_hw_number := "", oem_sw_number := "", ecu_type := "",
    engine_type := "", engine_code := "", is_delphi_crd := false }

/-- The eight public fields of the record, for field-indexed
preservation statements. -/
inductive Fld where
  | sv | bsn | bv | ohn | osn | et | ent | enc
deriving DecidableEq, Repr

def getF : Fld → MetadataRecord → String
  | .sv, r => r.sw_version
  | .bsn, r => r.bosch_sw_number
  | .bv, r => r.bosch_variant
  | .ohn, r => r.oem_hw_number
  | .osn, r => r.oem_sw_number
  | .et, r => r.ecu_type
  | .ent, r => r.engine_type
  | .enc, r => r.engine_code

/-- A record transformer that, outside the fields `exc`, writes only the
fields in `ws` and only when they are still empty: the shape of the
"set-if-empty" discipline of the extractor chain. -/
def StepWrites (step : MetadataRecord → MetadataRecord) (ws exc : List Fld) : Prop :=
  ∀ F r, F ∈ exc ∨ getF F (step r) = getF F r ∨ (F ∈ ws ∧ getF F r = "")

theorem StepWrites.comp {f g : MetadataRecord → MetadataRecord}
    {ws1 ws2 exc1 exc2 : List Fld}
    (hf : StepWrites f ws1 exc1) (hg : StepWrites g ws2 exc2) :
    StepWrites (fun r => g (f r)) (ws1 ++ ws2) (exc1 ++ exc2) := by
  intro F r
  rcases hg F (f r) with h | h | ⟨hw, he⟩
  · exact Or.inl (List.mem_append.mpr (Or.inr h))
  · rcases hf F r with h1 | h1 | ⟨hw1, he1⟩
    · exact Or.inl (List.mem_append.mpr (Or.inl h1))
    · exact Or.inr (Or.inl (h.trans h1))
    · exact Or.inr (Or.inr ⟨List.mem_append.mpr (Or.inl hw1), he1⟩)
  · rcases hf F r with h1 | h1 | ⟨hw1, he1⟩
    · exact Or.inl (List.mem_append.mpr (Or.inl h1))
    · exact Or.inr (Or.inr ⟨List.mem_append.mpr (Or.inr hw), h1 ▸ he⟩)
    · exact Or.inr (Or.inr ⟨List.mem_append.mpr (Or.inl hw1), he1⟩)

theorem StepWrites.mono {f : MetadataRecord → MetadataRecord}
    {ws ws2 exc exc2 : List Fld} (hf : StepWrites f ws exc)
    (h1 : ∀ F, F ∈ ws → F ∈ ws2) (h2 : ∀ F, F ∈ exc → F ∈ exc2) :
    StepWrites f ws2 exc2 := by
  intro F r
  rcases hf F r with h | h | ⟨hw, he⟩
  · exact Or.inl (h2 F h)
  · exact Or.inr (Or.inl h)
  · exact Or.inr (Or.inr ⟨h1 F hw, he⟩)

theorem StepWrites.id : StepWrites (fun r => r) [] [] := by
  intro F r; exact Or.inr (Or.inl rfl)

/-- Python `str.isdigit()`: non-empty and all decimal digits. -/
def pyIsDigitStr (s : String) : Bool := !(s == "") && s.toList.all Char.isDigit

/-- Python `int()` on a digit string. -/
def pyIntStr (s : String) : Nat := s.toList.foldl (fun a c => a * 10 + (c.toNat - 48)) 0

/-- Python `len(set(l))`. -/
def pyDistinct (l : List Char) : Nat := l.eraseDups.length

/-- Python `needle in hay` on lists. -/
def listInfix (pat hay : List Char) : Bool :=
  if List.isPrefixOf pat hay then true
  else match hay with
    | [] => false
    | _ :: t => listInfix pat t

/-- Python `needle in hay` on strings. -/
def strIn (needle hay : String) : Bool := listInfix needle.toList hay.toList

/-- Python `bytes.find`: index of the first occurrence, `none` for -1. -/
def listFindAux (needle : List Byte) : List Byte → Nat → Option Nat
  | hay, i =>
    if List.isPrefixOf needle hay then some i
    else match hay with
      | [] => none
      | _ :: t => listFindAux needle t (i + 1)

def listFind (hay needle : List Byte) : Option Nat := listFindAux needle hay 0

/-- `_extract_bosch` (bin_reader.py lines 73-145). -/
def _extract_bosch (data : List Byte) (r0 : MetadataRecord) : MetadataRecord :=
  -- SW number + variant (the two decodes and assignments are sequential,
  -- as in the Python try block)
  let r := match reSearch bosch_sw_variant data with
    | some m =>
      (match decodeAscii (mgroup m 1) with
       | some s1 =>
         let r1 := { r0 with bosch_sw_number := s1 }
         (match decodeAscii (mgroup m 2) with
          | some s2 => { r1 with bosch_variant := s2 }
          | none => r1)
       | none => r0)
    | none => r0
  -- Fallback: plain SW number without variant
  let r := if r.bosch_sw_number == "" then
      (match reSearch bosch_sw_number_re data with
       | some m =>
         (match decodeAscii (mgroup m 1) with
          | some s => { r with bosch_sw_number := s }
          | none => r)
       | none => r)
    else r
  -- ECU type
  let r := match reSearch bosch_ecu_type data with
    | some m =>
      (match decodeAscii (mgroup m 1) with
       | some s => { r with ecu_type := s }
       | none => r)
    | none => r
  -- Firmware version path: groups 2, 4, 5 are all decoded before any
  -- assignment happens
  let r := match reSearch bosch_path data with
    | some m =>
      (match decodeAscii (mgroup m 2), decodeAscii (mgroup m 4), decodeAscii (mgroup m 5) with
       | some path_ecu, some path_variant, some path_id =>
         let r1 := if r.ecu_type == "" then { r with ecu_type := path_ecu } else r
         -- Only pure numeric calibration versions; skip P-codes
         let r2 := if r1.sw_version == "" && !(path_variant == "")
                      && pyIsDigitStr path_variant && Nat.ble 3 path_variant.length
             then { r1 with sw_version := path_variant } else r1
         if r2.bosch_sw_number == "" && !(path_id == "")
             then { r2 with bosch_sw_number := path_id } else r2
       | _, _, _ => r)
    | none => r
  -- 10SW software part number
  let r := if r.bosch_sw_number == "" then
      (match reSearch bosch_10sw data with
       | some m =>
         (match decodeAscii (mgroup m 1) with
          | some s => { r with bosch_sw_number := "10SW" ++ s }
          | none => r)
       | none => r)
    else r
  -- Bosch hardware number, only once a Bosch ECU is confirmed
  let has_bosch := !(r.bosch_sw_number == "") || !(r.bosch_variant == "")
      || (!(r.ecu_type == "") && (reMatchStart boschEcuPrefix (strBytes r.ecu_type)).isSome)
  if r.oem_hw_number == "" && has_bosch then
    (match reSearch bosch_hw_number data with
     | some m =>
       (match decodeAscii (mgroup m 1) with
        | some s => { r with oem_hw_number := s }
        | none => r)
     | none => r)
  else r

/-- Python `str.split(sep)` with a one-character separator. -/
def splitChar (sep : Char) : List Char → List (List Char)
  | [] => [[]]
  | c :: t =>
    let r := splitChar sep t
    if c == sep then [] :: r
    else match r with
      | h :: t2 => (c :: h) :: t2
      | [] => [[c]]

def pySplit (sep : Char) (s : String) : List String :=
  (splitChar sep s.toList).map List.asString

/-- Python `sep.join(l)`. -/
def pyJoin (sep : String) : List String → String
  | [] => ""
  | [x] => x
  | x :: t => x ++ sep ++ pyJoin sep t

/-- `val.split('-')[1] if '-' in val else ''` -/
def pyFordMid (val : String) : String :=
  if val.toList.contains '-' then (pySplit '-' val).getD 1 "" else ""

/-- Decoded Ford part numbers classified as software (middle segment has
no 'C' among its first three characters). -/
def fordSwOf (ford_parts : List (List Byte)) : List String :=
  (ford_parts.filterMap decodeAscii).filter
    (fun v => !(((pyFordMid v).toList.take 3).contains 'C'))

/-- Decoded Ford part numbers classified as hardware modules. -/
def fordHwOf (ford_parts : List (List Byte)) : List String :=
  (ford_parts.filterMap decodeAscii).filter
    (fun v => ((pyFordMid v).toList.take 3).contains 'C')

/-- `if ford_sw and not result['oem_sw_number']: ...` -/
def fordSwCommit (ford_sw : List String) (r : MetadataRecord) : MetadataRecord :=
  if !(ford_sw == []) && r.oem_sw_number == ""
  then { r with oem_sw_number := ford_sw.headD "" } else r

/-- `if ford_hw and not result['oem_hw_number']: ...` -/
def fordHwCommit (ford_hw : List String) (r : MetadataRecord) : MetadataRecord :=
  if !(ford_hw == []) && r.oem_hw_number == ""
  then { r with oem_hw_number := ford_hw.headD "" } else r

/-- `if ford_sw and not result['sw_version']: ...` -/
def fordVerCommit (ford_sw : List String) (r : MetadataRecord) : MetadataRecord :=
  if !(ford_sw == []) && r.sw_version == ""
  then { r with sw_version := ford_sw.headD "" } else r

/-- The part-number classification block of `_extract_ford`
(bin_reader.py lines 187-208), as a function of the `re.findall`
result. -/
def fordPartsStep (ford_parts : List (List Byte)) (r0 : MetadataRecord) : MetadataRecord :=
  if !(ford_parts == []) then
    fordVerCommit (fordSwOf ford_parts)
      (fordHwCommit (fordHwOf ford_parts)
        (fordSwCommit (fordSwOf ford_parts) r0))
  else r0

/-- The calibration-ID block of `_extract_ford` (bin_reader.py lines
210-218), as a function of the `re.search` result. -/
def fordCalStep (m : Option Caps) (r : MetadataRecord) : MetadataRecord :=
  match m with
  | some m =>
    (match decodeAscii (mgroup m 1) with
     | some cal_id =>
       if r.bosch_sw_number == "" then { r with bosch_sw_number := cal_id } else r
     | none => r)
  | none => r

/-- `_extract_ford` (bin_reader.py lines 182-218). -/
def _extract_ford (data : List Byte) (r0 : MetadataRecord) : MetadataRecord :=
  fordCalStep (reSearch ford_calibration data)
    (fordPartsStep (findall1 ford_part_number data) r0)

/-- The ECU-type block of `_extract_continental` (uses `m.group(0)`). -/
def contEcuStep (m : Option Caps) (r : MetadataRecord) : MetadataRecord :=
  if r.ecu_type == "" then
    (match m with
     | some m =>
       (match decodeAscii (mgroup m 0) with
        | some s => { r with ecu_type := s }
        | none => r)
     | none => r)
  else r

/-- The calibration-ID block of `_extract_continental`. -/
def contCalIdStep (m : Option Caps) (r : MetadataRecord) : MetadataRecord :=
  if r.sw_version == "" then
    (match m with
     | some m =>
       (match decodeAscii (mgroup m 1) with
        | some s => { r with sw_version := s }
        | none => r)
     | none => r)
  else r

/-- The packed calibration-block OEM number of `_extract_continental`,
with the dummy-value filter on the first 8 characters. -/
def contCalBlockStep (m : Option Caps) (r : MetadataRecord) : MetadataRecord :=
  if r.oem_sw_number == "" then
    (match m with
     | some m =>
       (match decodeAscii (mgroup m 1) with
        | some val =>
          if Nat.ble 4 (pyDistinct (val.toList.take 8))
          then { r with oem_sw_number := val } else r
        | none => r)
     | none => r)
  else r

/-- `_extract_continental` (bin_reader.py lines 148-179). -/
def _extract_continental (data : List Byte) (r0 : MetadataRecord) : MetadataRecord :=
  contCalBlockStep (reSearch continental_cal_block data)
    (contCalIdStep (reSearch continental_cal_id data)
      (contEcuStep (reSearch continental_ecu_type data) r0))

/-- `if not result['ecu_type']: result['ecu_type'] = crd_ecu` -/
def crdSetEcu (crd_ecu : String) (r : MetadataRecord) : MetadataRecord :=
  if r.ecu_type == "" then { r with ecu_type := crd_ecu } else r

/-- `if not result['sw_version']: result['sw_version'] = crd_sw` -/
def crdSetSw (crd_sw : String) (r : MetadataRecord) : MetadataRecord :=
  if r.sw_version == "" then { r with sw_version := crd_sw } else r

/-- Mercedes engine family (651=OM651, 646=OM646, 642=OM642). -/
def crdSetEngine (crd_engine : String) (r : MetadataRecord) : MetadataRecord :=
  if r.engine_code == "" && pyIsDigitStr crd_engine
  then { r with engine_code := "OM" ++ crd_engine } else r

/-- Clear false Bosch matches and the potentially false HW number when a
Delphi CRD signature is confirmed. -/
def crdClear (r : MetadataRecord) : MetadataRecord :=
  { r with bosch_sw_number := "", bosch_variant := "", oem_hw_number := "" }

/-- The body of the CRD try-block on the last match: all three groups are
decoded first; on success the three guarded writes and the clears run. -/
def crdApply (m : Caps) (r : MetadataRecord) : MetadataRecord :=
  match decodeAscii (mgroup m 1), decodeAscii (mgroup m 2), decodeAscii (mgroup m 3) with
  | some crd_ecu, some crd_engine, some crd_sw =>
    crdClear (crdSetEngine crd_engine (crdSetSw crd_sw (crdSetEcu crd_ecu r)))
  | _, _, _ => r

/-- The CRD power-rating block. -/
def crdPowerCommit (mPower : Option Caps) (r : MetadataRecord) : MetadataRecord :=
  if r.engine_type == "" then
    (match mPower with
     | some mp =>
       (match decodeAscii (mgroup mp 1) with
        | some power => { r with engine_type := power ++ "kW" }
        | none => r)
     | none => r)
  else r

/-- The CRD block of `_extract_delphi` (bin_reader.py lines 229-265), as
a function of the `finditer` result and the power-rating `search` result:
the last match wins and the flag is set. -/
def delphiCrdStep (crd_matches : List Caps) (mPower : Option Caps)
    (r0 : MetadataRecord) : MetadataRecord :=
  if !(crd_matches == []) then
    crdPowerCommit mPower
      (crdApply (crd_matches.getLastD []) { r0 with is_delphi_crd := true })
  else r0

/-- The sw_version write of the DELIV try-block on the last match. -/
def delivApply (m : Caps) (r : MetadataRecord) : MetadataRecord :=
  match decodeAscii (mgroup m 1) with
  | some s => { r with sw_version := s }
  | none => r

/-- The DELIV block of `_extract_delphi` (bin_reader.py lines 267-276). -/
def delphiDelivStep (deliv_matches : List Caps) (r : MetadataRecord) : MetadataRecord :=
  if r.sw_version == "" then
    (if !(deliv_matches == []) then
       delivApply (deliv_matches.getLastD []) { r with is_delphi_crd := true }
     else r)
  else r

/-- `_extract_delphi` (bin_reader.py lines 221-285).  The final block
looks up `p['deliv_ext']`, a key absent from `DELPHI_PATTERNS`, so it
raises `KeyError` whenever `engine_code` is still empty there. -/
def _extract_delphi (data : List Byte) (r0 : MetadataRecord) : Except PyErr MetadataRecord :=
  let r := delphiCrdStep (finditerRe delphi_crd data) (reSearch delphi_crd_power data) r0
  let r := delphiDelivStep (finditerRe delphi_deliv data) r
  -- Engine code from DELIV extended: p['deliv_ext'] raises KeyError
  if r.engine_code == "" then
    match dictGet DELPHI_PATTERNS "deliv_ext" with
    | .error e => .error e
    | .ok pat =>
      .ok (match reSearch pat data with
        | some m =>
          (match decodeAscii (mgroup m 1) with
           | some s => { r with engine_code := s }
           | none => r)
        | none => r)
  else .ok r

/-- The GM calibration loop of `_extract_delco`: first candidate whose
first 8 characters have at least 4 distinct characters wins. -/
def gmCalLoop (r : MetadataRecord) : List Caps → MetadataRecord
  | [] => r
  | m :: rest =>
    match decodeAscii (mgroup m 1) with
    | none => gmCalLoop r rest
    | some val =>
      if Nat.ble 4 (pyDistinct (val.toList.take 8))
      then { r with oem_sw_number := val }
      else gmCalLoop r rest

/-- The S-number block of `_extract_delco`. -/
def delcoHwStep (m : Option Caps) (r : MetadataRecord) : MetadataRecord :=
  if r.oem_hw_number == "" then
    (match m with
     | some m =>
       (match decodeAscii (mgroup m 1) with
        | some s => { r with oem_hw_number := s }
        | none => r)
     | none => r)
  else r

/-- `_extract_delco` (bin_reader.py lines 289-311). -/
def _extract_delco (data : List Byte) (r0 : MetadataRecord) : MetadataRecord :=
  let r := delcoHwStep (reSearch delco_hw_part data) r0
  if r.oem_sw_number == "" then gmCalLoop r (finditerRe delco_gm_cal data) else r

/-- The part-number write of the Transtron try-block. -/
def transSw2 (m : Caps) (r : MetadataRecord) : MetadataRecord :=
  if r.oem_sw_number == "" then
    (match decodeAscii (mgroup m 2) with
     | some s2 => { r with oem_sw_number := s2 }
     | none => r)
  else r

/-- The body of `_extract_transtron` (bin_reader.py lines 314-331) as a
function of the copyright-gate and engine-part search results.  A decode
failure on the engine code aborts the whole try block, so the part number
is not attempted either. -/
def transtronStep (copyright_found : Bool) (m : Option Caps)
    (r0 : MetadataRecord) : MetadataRecord :=
  -- Only proceed if this is a Transtron ECU
  if !copyright_found then r0
  else
    match m with
    | some m =>
      if r0.engine_code == "" then
        (match decodeAscii (mgroup m 1) with
         | none => r0  -- UnicodeDecodeError aborts the whole try block
         | some s => transSw2 m { r0 with engine_code := s })
      else transSw2 m r0
    | none => r0

/-- `_extract_transtron` (bin_reader.py lines 314-331), over the
spec-modelled patterns of the missing `TRANSTRON_PATTERNS` table. -/
def _extract_transtron (data : List Byte) (r0 : MetadataRecord) : MetadataRecord :=
  transtronStep (reSearch transtron_copyright data).isSome
    (reSearch transtron_engine_part data) r0

/-- The body of `_extract_bmw` as a function of the search result. -/
def bmwStep (m : Option Caps) (r0 : MetadataRecord) : MetadataRecord :=
  if r0.engine_code == "" then
    (match m with
     | some m =>
       (match decodeAscii (mgroup m 1) with
        | some s => { r0 with engine_code := s }
        | none => r0)
     | none => r0)
  else r0

/-- `_extract_bmw` (bin_reader.py lines 334-345), over the spec-modelled
pattern of the missing `BMW_PATTERNS` table. -/
def _extract_bmw (data : List Byte) (r0 : MetadataRecord) : MetadataRecord :=
  bmwStep (reSearch bmw_engine data) r0

/-- The fallback single A-number loop of `_extract_mercedes`. -/
def mercFallbackLoop (r : MetadataRecord) : List Caps → MetadataRecord
  | [] => r
  | m :: rest =>
    match decodeAscii (mgroup m 1) with
    | none => mercFallbackLoop r rest
    | some val =>
      if Nat.ble 4 (pyDistinct (val.toList.drop 1))
      then { r with oem_hw_number := val }
      else mercFallbackLoop r rest

/-- The guarded hardware write of the Mercedes pair block, filtered on
the characters after the leading 'A'. -/
def mercHwCommit (hw : String) (r : MetadataRecord) : MetadataRecord :=
  if r.oem_hw_number == "" && Nat.ble 4 (pyDistinct (hw.toList.drop 1))
  then { r with oem_hw_number := hw } else r

/-- The guarded software write of the Mercedes pair block. -/
def mercSwCommit (sw : String) (r : MetadataRecord) : MetadataRecord :=
  if r.oem_sw_number == "" && Nat.ble 4 (pyDistinct (sw.toList.drop 1))
  then { r with oem_sw_number := sw } else r

/-- The A-number-pair block of `_extract_mercedes`: both groups are
decoded before the guarded writes. -/
def mercPairStep (m : Option Caps) (r0 : MetadataRecord) : MetadataRecord :=
  match m with
  | some m =>
    (match decodeAscii (mgroup m 1) with
     | none => r0
     | some hw =>
       (match decodeAscii (mgroup m 2) with
        | none => r0
        | some sw => mercSwCommit sw (mercHwCommit hw r0)))
  | none => r0

/-- `_extract_mercedes` (bin_reader.py lines 348-377): only active when
the Delphi CRD flag was set. -/
def _extract_mercedes (data : List Byte) (r0 : MetadataRecord) : MetadataRecord :=
  if !r0.is_delphi_crd then r0
  else
    let r := mercPairStep (reSearch mercedes_pair data) r0
    -- Fallback: single A-numbers
    if r.oem_hw_number == "" then mercFallbackLoop r (finditerRe mercedes_part_number data)
    else r

/-- The candidate loop of `_find_sw_version` (bin_reader.py lines 517-535):
skip a candidate that is a substring of a found OEM number, has a leading
zero, is divisible by 1000, or is below 1000; return the first survivor. -/
def versionLoop (oem_strings : List String) : List (List Byte) → String
  | [] => ""
  | c :: rest =>
    match decodeAscii c with
    | none => versionLoop oem_strings rest
    | some val =>
      if oem_strings.any (fun o => strIn val o) then versionLoop oem_strings rest
      else if val.toList.take 1 == ['0'] then versionLoop oem_strings rest
      else if pyIntStr val % 1000 == 0 then versionLoop oem_strings rest
      else if Nat.blt (pyIntStr val) 1000 then versionLoop oem_strings rest
      else val

/-- `_find_sw_version` (bin_reader.py lines 488-535): scan the window from
2048 bytes before to 4096 bytes after the first occurrence of the first
OEM match for isolated 4-5 digit tokens. -/
def _find_sw_version (data : List Byte) (oem_matches : List (List Byte)) : String :=
  if oem_matches == [] then ""
  else
    let first_oem := oem_matches.headD []
    match listFind data first_oem with
    | none => ""
    | some oem_pos =>
      let start := oem_pos - 2048          -- max(0, oem_pos - 2048)
      let stop := min data.length (oem_pos + 4096)
      let region := (data.drop start).take (stop - start)
      let candidates := findall1 version_pattern region
      let oem_strings := oem_matches.filterMap decodeAscii
      versionLoop oem_strings candidates

/-- The HW/SW classification loop over generic OEM matches
(bin_reader.py lines 389-402): a '907' infix means hardware, '906'
software; otherwise first unclassified is hardware, second software. -/
def classifyOemAux : List (List Byte) → List String → List String → List String × List String
  | [], hw, sw => (hw, sw)
  | mb :: rest, hw, sw =>
    match decodeAscii mb with
    | none => classifyOemAux rest hw sw
    | some val =>
      if strIn "907" val then classifyOemAux rest (hw ++ [val]) sw
      else if strIn "906" val then classifyOemAux rest hw (sw ++ [val])
      else if hw == [] then classifyOemAux rest (hw ++ [val]) sw
      else if sw == [] then classifyOemAux rest hw (sw ++ [val])
      else classifyOemAux rest hw sw

def classifyOem (oem_matches : List (List Byte)) : List String × List String :=
  classifyOemAux oem_matches [] []

/-- The Delphi HW part fallback loop of `_extract_generic`
(bin_reader.py lines 473-482). -/
def delphiHwLoop (r : MetadataRecord) : List Caps → MetadataRecord
  | [] => r
  | m :: rest =>
    match decodeAscii (mgroup m 1) with
    | none => delphiHwLoop r rest
    | some val =>
      if Nat.ble 4 (pyDistinct val.toList)
      then { r with oem_hw_number := val }
      else delphiHwLoop r rest

/-- `if hw_candidates and not result['oem_hw_number']: ...` -/
def genericOemHwCommit (hw_candidates : List String) (r : MetadataRecord) : MetadataRecord :=
  if !(hw_candidates == []) && r.oem_hw_number == ""
  then { r with oem_hw_number := hw_candidates.headD "" } else r

/-- `if sw_candidates and not result['oem_sw_number']: ...` -/
def genericOemSwCommit (sw_candidates : List String) (r : MetadataRecord) : MetadataRecord :=
  if !(sw_candidates == []) && r.oem_sw_number == ""
  then { r with oem_sw_number := sw_candidates.headD "" } else r

/-- The VAG OEM candidate commit of `_extract_generic`
(bin_reader.py lines 404-407). -/
def genericOemStep (cands : List String × List String) (r0 : MetadataRecord) : MetadataRecord :=
  genericOemSwCommit cands.2 (genericOemHwCommit cands.1 r0)

/-- The sequential engine_type/engine_code writes of the engine block:
neither checks whether its field is already populated. -/
def genericEngineApply (m : Caps) (r : MetadataRecord) : MetadataRecord :=
  match decodeAscii (mgroup m 1) with
  | some s1 =>
    (match decodeAscii (mgroup m 2) with
     | some s2 => { r with engine_type := s1, engine_code := s2 }
     | none => { r with engine_type := s1 })
  | none => r

/-- The engine type + code block of `_extract_generic`
(bin_reader.py lines 409-416): written without checking the fields
first. -/
def genericEngineStep (m : Option Caps) (r : MetadataRecord) : MetadataRecord :=
  match m with
  | some m => genericEngineApply m r
  | none => r

/-- The engine-type fallback block of `_extract_generic`. -/
def genericEngineTypeStep (m : Option Caps) (r : MetadataRecord) : MetadataRecord :=
  if r.engine_type == "" then
    (match m with
     | some m =>
       (match decodeAscii (mgroup m 1) with
        | some s => { r with engine_type := s }
        | none => r)
     | none => r)
  else r

/-- The VAG engine-code block of `_extract_generic`. -/
def genericVagStep (m : Option Caps) (r : MetadataRecord) : MetadataRecord :=
  if r.engine_code == "" then
    (match m with
     | some m =>
       (match decodeAscii (mgroup m 1) with
        | some s => { r with engine_code := s }
        | none => r)
     | none => r)
  else r

/-- The PSA part-number block of `_extract_generic`. -/
def genericPsaStep (m : Option Caps) (r : MetadataRecord) : MetadataRecord :=
  if r.oem_sw_number == "" then
    (match m with
     | some m =>
       (match decodeAscii (mgroup m 1) with
        | some s => { r with oem_sw_number := s }
        | none => r)
     | none => r)
  else r

/-- The match-processing part of the Bosch-path OEM block (never reached
in the source, since the table lookup for its pattern raises first). -/
def genericBoschPathApply (m : Option Caps) (r : MetadataRecord) : MetadataRecord :=
  match m with
  | some m =>
    (match decodeAscii (mgroup m 1) with
     | some val =>
       if Nat.ble 4 (pyDistinct val.toList)
       then { r with oem_sw_number := val } else r
     | none => r)
  | none => r

/-- The match-processing part of the .HEX OEM block (never reached in the
source, since the table lookup for its pattern raises first). -/
def genericHexApply (m : Option Caps) (r : MetadataRecord) : MetadataRecord :=
  match m with
  | some m =>
    (match decodeAscii (mgroup m 1) with
     | some s => { r with oem_sw_number := s }
     | none => r)
  | none => r

/-- The SW-version fallback commit of `_extract_generic`
(bin_reader.py lines 465-469). -/
def genericSwFallbackStep (sw_version : String) (r : MetadataRecord) : MetadataRecord :=
  if r.sw_version == "" then
    (if !(sw_version == "") then { r with sw_version := sw_version } else r)
  else r

/-- The Delphi HW fallback commit of `_extract_generic`
(bin_reader.py lines 471-482). -/
def genericDelphiHwStep (ms : List Caps) (r : MetadataRecord) : MetadataRecord :=
  if r.oem_hw_number == "" && r.is_delphi_crd then delphiHwLoop r ms else r

/-- `_extract_generic` (bin_reader.py lines 380-485).  The two lookups
`p['bosch_path_oem']` and `p['hex_oem']` hit keys absent from
`GENERIC_PATTERNS`, so each raises `KeyError` whenever `oem_sw_number`
is still empty when it is reached. -/
def _extract_generic (data : List Byte) (r0 : MetadataRecord) : Except PyErr MetadataRecord :=
  -- VAG OEM part numbers
  let oem_matches := findall1 generic_oem_number data
  let r := genericOemStep (classifyOem oem_matches) r0
  let r := genericEngineStep (reSearch generic_engine data) r
  let r := genericEngineTypeStep (reSearch generic_engine_type data) r
  let r := genericVagStep (reSearch generic_vag_engine data) r
  let r := genericPsaStep (reSearch generic_psa_part data) r
  -- OEM part number from Bosch path extension: p['bosch_path_oem'] raises
  match ((if r.oem_sw_number == "" then
      (match dictGet GENERIC_PATTERNS "bosch_path_oem" with
       | .error e => .error e
       | .ok pat => .ok (genericBoschPathApply (reSearch pat data) r))
    else .ok r : Except PyErr MetadataRecord)) with
  | .error e => .error e
  | .ok r =>
  -- OEM SW number after .HEX calibration filename: p['hex_oem'] raises
  match ((if r.oem_sw_number == "" then
      (match dictGet GENERIC_PATTERNS "hex_oem" with
       | .error e => .error e
       | .ok pat => .ok (genericHexApply (reSearch pat data) r))
    else .ok r : Except PyErr MetadataRecord)) with
  | .error e => .error e
  | .ok r =>
    -- SW version fallback near the OEM block
    let r := genericSwFallbackStep (_find_sw_version data oem_matches) r
    -- Delphi HW part number fallback, only for CRD files
    let r := genericDelphiHwStep (finditerRe delphi_hw_part data) r
    -- Clean up internal flags (result.pop)
    .ok { r with is_delphi_crd := false }

/-- The three extractors before Delphi, in the fixed order of
`read_bin_metadata`: Bosch, Ford, Continental. -/
def stage3 (data : List Byte) (r : MetadataRecord) : MetadataRecord :=
  _extract_continental data (_extract_ford data (_extract_bosch data r))

/-- Delphi followed by the rest of the chain: Delco, Transtron, BMW,
Mercedes, Generic. -/
def pipeFromDelphi (data : List Byte) (r : MetadataRecord) : Except PyErr MetadataRecord :=
  match _extract_delphi data r with
  | .error e => .error e
  | .ok r4 =>
    _extract_generic data
      (_extract_mercedes data
        (_extract_bmw data
          (_extract_transtron data
            (_extract_delco data r4))))

/-- The full extractor chain of `read_bin_metadata` on an in-memory
buffer. -/
def binExtract (data : List Byte) : Except PyErr MetadataRecord :=
  pipeFromDelphi data (stage3 data rec0)

/-- `read_bin_metadata` (bin_reader.py lines 21-66).  The filesystem is an
oracle from paths to optional contents; `none` models an I/O failure,
which is caught and yields the empty record, as does a zero-length file. -/
def read_bin_metadata (fs : String → Option (List Byte)) (file_path : String) :
    Except PyErr MetadataRecord :=
  match fs file_path with
  | none => .ok rec0
  | some data => if data.length == 0 then .ok rec0 else binExtract data

/-! ## parser.py: filename parsing (Autotuner and Flex grammars) -/

/-- Python `str.replace` (all occurrences, left to right), fueled by the
input length. -/
def replaceAux (pat rep : List Char) : Nat → List Char → List Char
  | 0, l => l
  | _ + 1, [] => []
  | fuel + 1, c :: t =>
    if List.isPrefixOf pat (c :: t) && !(pat == [])
    then rep ++ replaceAux pat rep fuel ((c :: t).drop pat.length)
    else c :: replaceAux pat rep fuel t

def pyReplace (s pat rep : String) : String :=
  (replaceAux pat.toList rep.toList s.toList.length s.toList).asString

/-- The `.replace('.bin', '').replace('.BIN', '')` normalization applied
before tokenization in all three parser entry points. -/
def stripBinName (name : String) : String := pyReplace (pyReplace name ".bin" "") ".BIN" ""

def pyLower (s : String) : String := (s.toList.map Char.toLower).asString

def pyUpper (s : String) : String := (s.toList.map Char.toUpper).asString

/-- Python `str.capitalize()`: first character uppercased, the rest
lowercased. -/
def pyCapitalize (s : String) : String :=
  match s.toList with
  | [] => ""
  | c :: t => (Char.toUpper c :: t.map Char.toLower).asString

/-- Python `str.strip()`. -/
def pyStrip (s : String) : String :=
  (((s.toList.dropWhile (fun c => isSpaceB c.toNat)).reverse.dropWhile
      (fun c => isSpaceB c.toNat)).reverse).asString

def ECU_BRANDS : List String :=
  ["Bosch", "Siemens", "Delphi", "Continental",
   "Marelli", "Valeo", "Denso", "PCR", "EDC", "MED",
   "Delco", "Transtron"]

def FLEX_BRANDS : List (String × String) := [
  ("fomoco", "Ford"), ("psa", "PSA"), ("vag", "Volkswagen"),
  ("bmw", "BMW"), ("fca", "FCA"), ("renault", "Renault"),
  ("nissan", "Nissan"), ("opel", "Opel"), ("toyota", "Toyota"),
  ("hyundai", "Hyundai"), ("kia", "Kia"), ("mercedes", "Mercedes"),
  ("gm", "GM"), ("jlr", "JLR"), ("suzuki", "Suzuki"),
  ("subaru", "Subaru"), ("mazda", "Mazda"), ("mitsubishi", "Mitsubishi"),
  ("volvo", "Volvo"), ("iveco", "Iveco"), ("man", "MAN"),
  ("daf", "DAF"), ("scania", "Scania"), ("isuzu", "Isuzu"),
  ("honda", "Honda"), ("jaguar", "Jaguar"), ("landrover", "Land Rover"),
  ("porsche", "Porsche"), ("audi", "Audi"), ("seat", "Seat"),
  ("skoda", "Skoda"), ("chrysler", "Chrysler"), ("jeep", "Jeep"),
  ("dodge", "Dodge"), ("alfa", "Alfa Romeo"), ("fiat", "Fiat"),
  ("lancia", "Lancia"), ("citroen", "Citroen"), ("peugeot", "Peugeot"),
  ("ds", "DS"), ("mini", "Mini"), ("smart", "Smart")]

def FLEX_ECU_BRANDS : List String :=
  ["bosch", "siemens", "delphi", "continental", "marelli",
   "denso", "delco", "valeo", "hitachi", "kefico", "transtron"]

def FLEX_READ_METHODS : List String := ["obd", "bench", "boot"]

/-- The parsed-filename dict of `FileParser.parse_filename`. -/
structure ParsedName where
  make : String
  model : String
  engine : String
  ecu : String
  date : String
  mileage : String
  registration : String
  read_method : String
deriving DecidableEq, Repr

/-- `FileParser.is_flex_filename` (parser.py lines 17-32). -/
def is_flex_filename (filename : String) : Bool :=
  let name := stripBinName filename
  -- Flex files use dashes, not underscores as primary separator
  if name.toList.contains '_' && !(name.toList.contains '-') then false
  else
    let parts := pySplit '-' name
    if Nat.blt parts.length 4 then false
    -- known Flex brand prefix
    else if FLEX_BRANDS.any (fun p => p.1 == pyLower (parts.headD "")) then true
    -- known ECU brand as second part
    else if Nat.blt 1 parts.length
        && FLEX_ECU_BRANDS.contains (pyLower (parts.getD 1 "")) then true
    else false

/-- The timestamp scan of `parse_flex_filename`: first part of length 14,
all digits, starting with "20". -/
def findTimestampIdxAux : List String → Nat → Option Nat
  | [], _ => none
  | p :: rest, i =>
    if p.length == 14 && pyIsDigitStr p && p.toList.take 2 == ['2', '0'] then some i
    else findTimestampIdxAux rest (i + 1)

def findTimestampIdx (parts : List String) : Option Nat := findTimestampIdxAux parts 0

/-- `parts[:timestamp_idx] if timestamp_idx else parts`: a timestamp at
index 0 is falsy, so the whole list is kept. -/
def flexMetaParts (parts : List String) : List String :=
  match findTimestampIdx parts with
  | some i => if i == 0 then parts else parts.take i
  | none => parts

/-- The date of a Flex filename: the first 8 digits of the timestamp
part when one is found, otherwise the current date
(`parsed['date'] = datetime.now()...` then overwritten on a hit). -/
def flexDate (today : String) (parts : List String) : String :=
  match findTimestampIdx parts with
  | some i => ((parts.getD i "").toList.take 8).asString
  | none => today

/-- `FileParser.parse_flex_filename` (parser.py lines 35-109). -/
def parse_flex_filename (today : String) (filename : String) : ParsedName :=
  let name := stripBinName filename
  let parts := pySplit '-' name
  let date := flexDate today parts
  let meta_parts := flexMetaParts parts
  if meta_parts == [] then
    { make := "", model := "", engine := "", ecu := "",
      date := date, mileage := "", registration := "", read_method := "" }
  else
    -- first part: brand -> make
    let brand := pyLower (meta_parts.headD "")
    let make := match FLEX_BRANDS.find? (fun (p : String × String) => p.1 == brand) with
      | some q => q.2
      | none => pyCapitalize brand
    let remaining := meta_parts.tail
    -- second part: ECU brand (if recognized)
    let eb := if !(remaining == []) && FLEX_ECU_BRANDS.contains (pyLower (remaining.headD ""))
        then (pyCapitalize (remaining.headD ""), remaining.tail)
        else ("", remaining)
    -- next part: ECU type
    let et := if !(eb.2 == []) then (pyUpper (eb.2.headD ""), eb.2.tail)
        else ("", eb.2)
    -- find read method in remaining parts
    let read_method_raw := match et.2.find? (fun p => FLEX_READ_METHODS.contains (pyLower p)) with
      | some p => pyLower p
      | none => ""
    -- map read method
    let read_method :=
      if read_method_raw == "obd" then "Normal Read-OBD"
      else if read_method_raw == "bench" then "Bench"
      else if read_method_raw == "boot" then "Boot"
      else ""
    { make := make, model := "", engine := "",
      ecu := pyStrip (eb.1 ++ " " ++ et.1),  -- build ECU string
      date := date, mileage := "", registration := "", read_method := read_method }

/-- The model/ECU accumulation loop of the Autotuner grammar
(parser.py lines 147-159). -/
def autoLoop : List String → Bool → List String → List String → List String × List String
  | [], _, model_parts, ecu_parts => (model_parts, ecu_parts)
  | p :: rest, found_ecu, model_parts, ecu_parts =>
    if p == "" then autoLoop rest found_ecu model_parts ecu_parts
    else if ECU_BRANDS.any (fun b => strIn b p) then
      autoLoop rest true model_parts (ecu_parts ++ [p])
    else if found_ecu then autoLoop rest true model_parts (ecu_parts ++ [p])
    else if !(["OBD", "BENCH", "BOOT", "NR", "OR", "hp", "ps", "kW"].any (fun x => strIn x p))
    then autoLoop rest found_ecu (model_parts ++ [p]) ecu_parts
    else autoLoop rest found_ecu model_parts ecu_parts

/-- The read-method detection of the Autotuner grammar (substring search
over the uppercased name, with the virtual-read variant). -/
def autoReadMethod (name_upper : String) : String :=
  if strIn "BENCH" name_upper then "Bench"
  else if strIn "BOOT" name_upper then "Boot"
  else if strIn "OBD" name_upper then
    (if strIn "VIRTUAL" name_upper || strIn "VR" name_upper
     then "Virtual Read-OBD" else "Normal Read-OBD")
  else ""

/-- `FileParser.parse_filename` (parser.py lines 112-180). -/
def parse_filename (today : String) (filename : String) : ParsedName :=
  -- check for Flex format first
  if is_flex_filename filename then parse_flex_filename today filename
  else
    let name := stripBinName filename
    let parts := pySplit '_' name
    let make := if Nat.blt 0 parts.length then parts.headD "" else ""
    let mp := autoLoop parts.tail false [] []
    { make := make,
      model := if mp.1 == [] then "" else pyJoin " " mp.1,
      engine := "",
      -- clean up ECU name
      ecu := pyStrip (pyReplace (if mp.2 == [] then "" else pyJoin " " mp.2) "  " " "),
      date := today, mileage := "", registration := "",
      read_method := autoReadMethod (pyUpper name) }

/-- The merged record of `FileParser.parse_bin_file`: the filename fields
plus the BIN metadata fields. -/
structure ParsedBin where
  make : String
  model : String
  engine : String
  ecu : String
  date : String
  mileage : String
  registration : String
  read_method : String
  sw_version : String
  bosch_sw_number : String
  oem_hw_number : String
  oem_sw_number : String
  engine_code : String
  engine_type : String
deriving DecidableEq, Repr

/-- `os.path.basename` for POSIX paths. -/
def pyBasename (path : String) : String := (pySplit '/' path).getLastD ""

/-- `file_path.lower().endswith('.bin')` -/
def lowerEndsBin (path : String) : Bool :=
  List.isSuffixOf ".bin".toList (pyLower path).toList

/-- `FileParser.parse_bin_file` (parser.py lines 183-217).  The same
filesystem oracle models `open` and `os.path.isfile`. -/
def parse_bin_file (today : String) (fs : String → Option (List Byte)) (file_path : String) :
    Except PyErr ParsedBin :=
  let filename := pyBasename file_path
  let parsed := parse_filename today filename
  -- add empty BIN metadata fields as defaults
  let pb : ParsedBin :=
    { make := parsed.make, model := parsed.model, engine := parsed.engine,
      ecu := parsed.ecu, date := parsed.date, mileage := parsed.mileage,
      registration := parsed.registration, read_method := parsed.read_method,
      sw_version := "", bosch_sw_number := "", oem_hw_number := "",
      oem_sw_number := "", engine_code := "", engine_type := "" }
  -- try to read BIN metadata
  if lowerEndsBin file_path && (fs file_path).isSome then
    match read_bin_metadata fs file_path with
    | .error e => .error e
    | .ok bin_meta =>
      let pb := { pb with
        sw_version := bin_meta.sw_version,
        bosch_sw_number := bin_meta.bosch_sw_number,
        oem_hw_number := bin_meta.oem_hw_number,
        oem_sw_number := bin_meta.oem_sw_number,
        engine_code := bin_meta.engine_code,
        engine_type := bin_meta.engine_type }
      -- if BIN has a better ECU type, use it
      .ok (if !(bin_meta.ecu_type == "") then { pb with ecu := bin_meta.ecu_type } else pb)
  else .ok pb

/-! ## Preservation lemmas: the set-if-empty discipline of each block -/

theorem getF_flag (F : Fld) (r : MetadataRecord) (b : Bool) :
    getF F { r with is_delphi_crd := b } = getF F r := by
  cases F <;> rfl

theorem fordSwCommit_w (fs : List String) : StepWrites (fordSwCommit fs) [.osn] [] := by
  intro F r
  unfold fordSwCommit
  cases F <;> (repeat' split) <;> simp_all [getF]

theorem fordHwCommit_w (fh : List String) : StepWrites (fordHwCommit fh) [.ohn] [] := by
  intro F r
  unfold fordHwCommit
  cases F <;> (repeat' split) <;> simp_all [getF]

theorem fordVerCommit_w (fs : List String) : StepWrites (fordVerCommit fs) [.sv] [] := by
  intro F r
  unfold fordVerCommit
  cases F <;> (repeat' split) <;> simp_all [getF]

theorem fordCalStep_w (m : Option Caps) : StepWrites (fordCalStep m) [.bsn] [] := by
  intro F r
  unfold fordCalStep
  cases F <;> (repeat' split) <;> simp_all [getF]

theorem fordPartsStep_w (ps : List (List Byte)) :
    StepWrites (fordPartsStep ps) [.osn, .ohn, .sv] [] := by
  intro F r
  unfold fordPartsStep
  split
  · exact ((fordSwCommit_w (fordSwOf ps)).comp
      ((fordHwCommit_w (fordHwOf ps)).comp (fordVerCommit_w (fordSwOf ps)))) F r
  · exact Or.inr (Or.inl rfl)

theorem extract_ford_w (data : List Byte) :
    StepWrites (_extract_ford data) [.osn, .ohn, .sv, .bsn] [] := by
  have h := (fordPartsStep_w (findall1 ford_part_number data)).comp
    (fordCalStep_w (reSearch ford_calibration data))
  exact fun F r => h F r

theorem contEcuStep_w (m : Option Caps) : StepWrites (contEcuStep m) [.et] [] := by
  intro F r
  unfold contEcuStep
  cases F <;> (repeat' split) <;> simp_all [getF]

theorem contCalIdStep_w (m : Option Caps) : StepWrites (contCalIdStep m) [.sv] [] := by
  intro F r
  unfold contCalIdStep
  cases F <;> (repeat' split) <;> simp_all [getF]

theorem contCalBlockStep_w (m : Option Caps) : StepWrites (contCalBlockStep m) [.osn] [] := by
  intro F r
  unfold contCalBlockStep
  cases F <;> (repeat' split) <;> simp_all [getF]

theorem extract_continental_w (data : List Byte) :
    StepWrites (_extract_continental data) [.et, .sv, .osn] [] := by
  have h := ((contEcuStep_w (reSearch continental_ecu_type data)).comp
      (contCalIdStep_w (reSearch continental_cal_id data))).comp
    (contCalBlockStep_w (reSearch continental_cal_block data))
  exact fun F r => h F r

theorem flagSet_w (b : Bool) :
    StepWrites (fun r => { r with is_delphi_crd := b }) [] [] :=
  fun F r => Or.inr (Or.inl (getF_flag F r b))

theorem crdSetEcu_w (s : String) : StepWrites (crdSetEcu s) [.et] [] := by
  intro F r
  unfold crdSetEcu
  cases F <;> (repeat' split) <;> simp_all [getF]

theorem crdSetSw_w (s : String) : StepWrites (crdSetSw s) [.sv] [] := by
  intro F r
  unfold crdSetSw
  cases F <;> (repeat' split) <;> simp_all [getF]

theorem crdSetEngine_w (s : String) : StepWrites (crdSetEngine s) [.enc] [] := by
  intro F r
  unfold crdSetEngine
  cases F <;> (repeat' split) <;> simp_all [getF]

theorem crdClear_w : StepWrites crdClear [] [.bsn, .bv, .ohn] := by
  intro F r
  cases F <;> simp [getF, crdClear]

theorem crdApply_w (m : Caps) : StepWrites (crdApply m) [.et, .sv, .enc] [.bsn, .bv, .ohn] := by
  intro F r
  unfold crdApply
  split
  · exact (((crdSetEcu_w _).comp ((crdSetSw_w _).comp (crdSetEngine_w _))).comp crdClear_w) F r
  · exact Or.inr (Or.inl rfl)

theorem crdPowerCommit_w (mp : Option Caps) : StepWrites (crdPowerCommit mp) [.ent] [] := by
  intro F r
  unfold crdPowerCommit
  cases F <;> (repeat' split) <;> simp_all [getF]

theorem delphiCrdStep_w (ms : List Caps) (mp : Option Caps) :
    StepWrites (delphiCrdStep ms mp) [.et, .sv, .enc, .ent] [.bsn, .bv, .ohn] := by
  intro F r
  unfold delphiCrdStep
  split
  · exact ((flagSet_w true).comp ((crdApply_w _).comp (crdPowerCommit_w mp))) F r
  · exact Or.inr (Or.inl rfl)

theorem delivApply_only (m : Caps) (F : Fld) (hF : F ≠ .sv) (r : MetadataRecord) :
    getF F (delivApply m r) = getF F r := by
  unfold delivApply
  cases F <;> (repeat' split) <;> simp_all [getF]

theorem delphiDelivStep_w (ms : List Caps) : StepWrites (delphiDelivStep ms) [.sv] [] := by
  intro F r
  unfold delphiDelivStep
  by_cases hF : F = .sv
  · subst hF
    (repeat' split) <;> simp_all [getF]
  · (repeat' split) <;>
      first
        | exact Or.inr (Or.inl rfl)
        | exact Or.inr (Or.inl ((delivApply_only _ F hF _).trans (getF_flag F r true)))

/-- The `StepWrites` discipline for an extractor in the `Except` monad,
about its successful results. -/
def StepWritesE (step : MetadataRecord → Except PyErr MetadataRecord)
    (ws exc : List Fld) : Prop :=
  ∀ F r r', step r = .ok r' → F ∈ exc ∨ getF F r' = getF F r ∨ (F ∈ ws ∧ getF F r = "")

theorem extract_delphi_w (data : List Byte) :
    StepWritesE (_extract_delphi data) [.et, .sv, .enc, .ent, .sv] [.bsn, .bv, .ohn] := by
  intro F r r' h
  unfold _extract_delphi at h
  rw [show dictGet DELPHI_PATTERNS "deliv_ext" = Except.error (.keyError "deliv_ext") from rfl] at h
  dsimp only at h
  split at h
  · exact absurd h (by simp)
  · have hr : r' = delphiDelivStep (finditerRe delphi_deliv data)
        (delphiCrdStep (finditerRe delphi_crd data) (reSearch delphi_crd_power data) r) := by
      exact (Except.ok.injEq _ _).mp h.symm
    subst hr
    exact ((delphiCrdStep_w _ _).comp (delphiDelivStep_w _)) F r

theorem delcoHwStep_w (m : Option Caps) : StepWrites (delcoHwStep m) [.ohn] [] := by
  intro F r
  unfold delcoHwStep
  cases F <;> (repeat' split) <;> simp_all [getF]

theorem gmCalLoop_only (F : Fld) (hF : F ≠ .osn) (ms : List Caps) :
    ∀ r, getF F (gmCalLoop r ms) = getF F r := by
  induction ms with
  | nil => intro r; rfl
  | cons m rest ih =>
    intro r
    unfold gmCalLoop
    (repeat' split) <;>
      first
        | exact ih r
        | (cases F <;> simp_all [getF])

theorem extract_delco_w (data : List Byte) :
    StepWrites (_extract_delco data) [.ohn, .osn] [] := by
  have hloop : StepWrites
      (fun r => if r.oem_sw_number == "" then gmCalLoop r (finditerRe delco_gm_cal data) else r)
      [.osn] [] := by
    intro F r
    dsimp only
    by_cases hF : F = .osn
    · subst hF
      by_cases he : r.oem_sw_number = ""
      · exact Or.inr (Or.inr ⟨by simp, he⟩)
      · rw [if_neg (by simpa using he)]
        exact Or.inr (Or.inl rfl)
    · split
      · exact Or.inr (Or.inl (gmCalLoop_only F hF _ r))
      · exact Or.inr (Or.inl rfl)
  exact fun F r => ((delcoHwStep_w (reSearch delco_hw_part data)).comp hloop) F r

theorem transSw2_w (m : Caps) : StepWrites (transSw2 m) [.osn] [] := by
  intro F r
  unfold transSw2
  cases F <;> (repeat' split) <;> simp_all [getF]

theorem getF_set_enc (F : Fld) (hF : F ≠ .enc) (r : MetadataRecord) (s : String) :
    getF F { r with engine_code := s } = getF F r := by
  cases F <;> simp_all [getF]

theorem transtronStep_w (g : Bool) (m : Option Caps) :
    StepWrites (transtronStep g m) [.enc, .osn] [] := by
  intro F r
  unfold transtronStep
  by_cases hg : (!g) = true
  · rw [if_pos hg]; exact Or.inr (Or.inl rfl)
  · rw [if_neg hg]
    cases m with
    | none => exact Or.inr (Or.inl rfl)
    | some mc =>
      dsimp only
      by_cases henc : r.engine_code = ""
      · rw [if_pos (by simpa using henc)]
        cases hd : decodeAscii (mgroup mc 1) with
        | none => exact Or.inr (Or.inl rfl)
        | some s =>
          by_cases hF : F = .enc
          · subst hF
            exact Or.inr (Or.inr ⟨by simp, henc⟩)
          · rcases transSw2_w mc F { r with engine_code := s } with h | h | ⟨hw, he⟩
            · exact absurd h (by simp)
            · exact Or.inr (Or.inl (h.trans (getF_set_enc F hF r s)))
            · have hFo : F = .osn := by simpa using hw
              subst hFo
              exact Or.inr (Or.inr ⟨by simp, he⟩)
      · rw [if_neg (by simpa using henc)]
        rcases transSw2_w mc F r with h | h | ⟨hw, he⟩
        · exact absurd h (by simp)
        · exact Or.inr (Or.inl h)
        · have hFo : F = .osn := by simpa using hw
          subst hFo
          exact Or.inr (Or.inr ⟨by simp, he⟩)

theorem bmwStep_w (m : Option Caps) : StepWrites (bmwStep m) [.enc] [] := by
  intro F r
  unfold bmwStep
  cases F <;> (repeat' split) <;> simp_all [getF]

theorem mercHwCommit_w (hw : String) : StepWrites (mercHwCommit hw) [.ohn] [] := by
  intro F r
  unfold mercHwCommit
  cases F <;> (repeat' split) <;> simp_all [getF]

theorem mercSwCommit_w (sw : String) : StepWrites (mercSwCommit sw) [.osn] [] := by
  intro F r
  unfold mercSwCommit
  cases F <;> (repeat' split) <;> simp_all [getF]

theorem mercPairStep_w (m : Option Caps) : StepWrites (mercPairStep m) [.ohn, .osn] [] := by
  intro F r
  unfold mercPairStep
  (repeat' split) <;>
    first
      | exact Or.inr (Or.inl rfl)
      | exact ((mercHwCommit_w _).comp (mercSwCommit_w _)) F r

theorem mercFallbackLoop_only (F : Fld) (hF : F ≠ .ohn) (ms : List Caps) :
    ∀ r, getF F (mercFallbackLoop r ms) = getF F r := by
  induction ms with
  | nil => intro r; rfl
  | cons m rest ih =>
    intro r
    unfold mercFallbackLoop
    (repeat' split) <;>
      first
        | exact ih r
        | (cases F <;> simp_all [getF])

theorem extract_mercedes_w (data : List Byte) :
    StepWrites (_extract_mercedes data) [.ohn, .osn] [] := by
  have hloop : StepWrites
      (fun r => if r.oem_hw_number == ""
        then mercFallbackLoop r (finditerRe mercedes_part_number data) else r)
      [.ohn] [] := by
    intro F r
    dsimp only
    by_cases hF : F = .ohn
    · subst hF
      by_cases he : r.oem_hw_number = ""
      · exact Or.inr (Or.inr ⟨by simp, he⟩)
      · rw [if_neg (by simpa using he)]
        exact Or.inr (Or.inl rfl)
    · split
      · exact Or.inr (Or.inl (mercFallbackLoop_only F hF _ r))
      · exact Or.inr (Or.inl rfl)
  intro F r
  unfold _extract_mercedes
  split
  · exact Or.inr (Or.inl rfl)
  · dsimp only
    have hc := @StepWrites.mono _ ([.ohn, .osn] ++ [.ohn]) [.ohn, .osn] ([] ++ []) []
      ((mercPairStep_w (reSearch mercedes_pair data)).comp hloop)
      (by intro G hG; simp at hG ⊢; tauto)
      (by intro G hG; simp at hG)
    exact hc F r

theorem genericOemHwCommit_w (hc : List String) : StepWrites (genericOemHwCommit hc) [.ohn] [] := by
  intro F r
  unfold genericOemHwCommit
  cases F <;> (repeat' split) <;> simp_all [getF]

theorem genericOemSwCommit_w (sc : List String) : StepWrites (genericOemSwCommit sc) [.osn] [] := by
  intro F r
  unfold genericOemSwCommit
  cases F <;> (repeat' split) <;> simp_all [getF]

theorem genericOemStep_w (cands : List String × List String) :
    StepWrites (genericOemStep cands) [.ohn, .osn] [] :=
  fun F r => ((genericOemHwCommit_w cands.1).comp (genericOemSwCommit_w cands.2)) F r

theorem genericEngineStep_w (m : Option Caps) :
    StepWrites (genericEngineStep m) [] [.ent, .enc] := by
  intro F r
  unfold genericEngineStep genericEngineApply
  cases F <;> (repeat' split) <;> simp_all [getF]

theorem genericEngineTypeStep_w (m : Option Caps) :
    StepWrites (genericEngineTypeStep m) [.ent] [] := by
  intro F r
  unfold genericEngineTypeStep
  cases F <;> (repeat' split) <;> simp_all [getF]

theorem genericVagStep_w (m : Option Caps) : StepWrites (genericVagStep m) [.enc] [] := by
  intro F r
  unfold genericVagStep
  cases F <;> (repeat' split) <;> simp_all [getF]

theorem genericPsaStep_w (m : Option Caps) : StepWrites (genericPsaStep m) [.osn] [] := by
  intro F r
  unfold genericPsaStep
  cases F <;> (repeat' split) <;> simp_all [getF]

theorem genericSwFallbackStep_w (v : String) : StepWrites (genericSwFallbackStep v) [.sv] [] := by
  intro F r
  unfold genericSwFallbackStep
  cases F <;> (repeat' split) <;> simp_all [getF]

theorem delphiHwLoop_only (F : Fld) (hF : F ≠ .ohn) (ms : List Caps) :
    ∀ r, getF F (delphiHwLoop r ms) = getF F r := by
  induction ms with
  | nil => intro r; rfl
  | cons m rest ih =>
    intro r
    unfold delphiHwLoop
    (repeat' split) <;>
      first
        | exact ih r
        | (cases F <;> simp_all [getF])

theorem genericDelphiHwStep_w (ms : List Caps) :
    StepWrites (genericDelphiHwStep ms) [.ohn] [] := by
  intro F r
  unfold genericDelphiHwStep
  by_cases hF : F = .ohn
  · subst hF
    by_cases he : r.oem_hw_number = ""
    · exact Or.inr (Or.inr ⟨by simp, he⟩)
    · rw [if_neg (by simp [he])]
      exact Or.inr (Or.inl rfl)
  · split
    · exact Or.inr (Or.inl (delphiHwLoop_only F hF _ r))
    · exact Or.inr (Or.inl rfl)

set_option maxHeartbeats 1000000 in
theorem extract_generic_w (data : List Byte) :
    StepWritesE (_extract_generic data) [.ohn, .osn, .sv, .ent, .enc] [.ent, .enc] := by
  intro F r r' h
  unfold _extract_generic at h
  rw [show dictGet GENERIC_PATTERNS "bosch_path_oem"
        = Except.error (.keyError "bosch_path_oem") from rfl,
      show dictGet GENERIC_PATTERNS "hex_oem"
        = Except.error (.keyError "hex_oem") from rfl] at h
  dsimp only at h
  split at h
  · simp at h
  · rename_i rmid1 heq1
    split at h
    · simp at h
    · rename_i rmid2 heq2
      injection h with h2
      subst h2
      split at heq1
      · simp at heq1
      · injection heq1 with he1
        subst he1
        split at heq2
        · simp at heq2
        · injection heq2 with he2
          subst he2
          have hc := ((genericOemStep_w (classifyOem (findall1 generic_oem_number data))).comp
            ((genericEngineStep_w (reSearch generic_engine data)).comp
            ((genericEngineTypeStep_w (reSearch generic_engine_type data)).comp
            ((genericVagStep_w (reSearch generic_vag_engine data)).comp
              ((genericPsaStep_w (reSearch generic_psa_part data)).comp
              ((genericSwFallbackStep_w
                  (_find_sw_version data (findall1 generic_oem_number data))).comp
                ((genericDelphiHwStep_w (finditerRe delphi_hw_part data)).comp
                  (flagSet_w false))))))))
          have hm := @StepWrites.mono _ _ [.ohn, .osn, .sv, .ent, .enc] _ [.ent, .enc] hc
            (by intro G hG; cases G <;> simp at hG ⊢)
            (by intro G hG; cases G <;> simp at hG ⊢)
          exact hm F r

/-! ## The claims -/

instance {ε α : Type} [DecidableEq ε] [DecidableEq α] : DecidableEq (Except ε α) := fun x y =>
  match x, y with
  | .ok a, .ok b => decidable_of_iff (a = b) (by simp)
  | .error a, .error b => decidable_of_iff (a = b) (by simp)
  | .ok _, .error _ => isFalse (by simp)
  | .error _, .ok _ => isFalse (by simp)

/-- C1: the claim says `extract` returns a MetadataRecord for every file
path and content and never lets an exception escape, with all eight
fields empty on I/O failure or a zero-length file.  The I/O-failure and
empty-file parts hold, but on the one-byte content "X" the engine reaches
the lookup `DELPHI_PATTERNS['deliv_ext']`, whose key is absent from
constants.py, and a `KeyError` escapes. -/
theorem C1_extract_error_handling :
    (∀ path, read_bin_metadata (fun _ => none) path = .ok rec0)
  ∧ (∀ F, getF F rec0 = "")
  ∧ read_bin_metadata (fun p => if p == "empty.bin" then some [] else none) "empty.bin"
      = .ok rec0
  ∧ read_bin_metadata (fun p => if p == "x.bin" then some (strBytes "X") else none) "x.bin"
      = .error (.keyError "deliv_ext") := by
  refine ⟨fun path => rfl, fun F => by cases F <;> rfl, by decide, by decide⟩

/-- The buffer of the C2 counterexample: a Bosch software number followed
by a Delphi CRD signature. -/
def c2buf : List Byte := strBytes "1037394113 CRD2-651-TMABDD11"

/-- The buffer and prior record of the second C2 counterexample: the
generic engine pattern overwrites non-empty engine fields. -/
def c2gbuf : List Byte := strBytes "R4 2.0l TDI  CFFB"

def c2grec : MetadataRecord :=
  { rec0 with engine_type := "98kW", engine_code := "OM651", oem_sw_number := "X" }

/-- C2 counterexample: the claim fails as stated.  (1) Bosch (an earlier
extractor) sets `bosch_sw_number` to the non-empty "1037394113", and
running Delphi afterward changes it to "".  (2) With `engine_type` and
`engine_code` already non-empty, running the Generic extractor on a
buffer matching the engine pattern changes both. -/
theorem C2_priority_counterexample :
    (_extract_bosch c2buf rec0).bosch_sw_number = "1037394113"
  ∧ (_extract_delphi c2buf (_extract_bosch c2buf rec0)).map (fun r => r.bosch_sw_number)
      = .ok ""
  ∧ c2grec.engine_type = "98kW" ∧ c2grec.engine_code = "OM651"
  ∧ (_extract_generic c2gbuf c2grec).map (fun r => (r.engine_type, r.engine_code))
      = .ok ("R4 2.0l TDI", "CFFB") := by
  refine ⟨by decide, by decide, rfl, rfl, by decide⟩

/-- The extractors that run after at least one earlier extractor, in the
fixed execution order. -/
inductive ExtStage where
  | ford | continental | delphi | delco | transtron | bmw | mercedes | generic
deriving DecidableEq, Repr

def runExt : ExtStage → List Byte → MetadataRecord → Except PyErr MetadataRecord
  | .ford, data, r => .ok (_extract_ford data r)
  | .continental, data, r => .ok (_extract_continental data r)
  | .delphi, data, r => _extract_delphi data r
  | .delco, data, r => .ok (_extract_delco data r)
  | .transtron, data, r => .ok (_extract_transtron data r)
  | .bmw, data, r => .ok (_extract_bmw data r)
  | .mercedes, data, r => .ok (_extract_mercedes data r)
  | .generic, data, r => _extract_generic data r

/-- The fields each later extractor may change even when non-empty: the
Delphi CRD retraction of the Bosch fields and the OEM hardware number,
and the Generic engine-pattern write of engine_type/engine_code. -/
def extExc : ExtStage → List Fld
  | .delphi => [.bsn, .bv, .ohn]
  | .generic => [.ent, .enc]
  | _ => []

/-- C2 amended: for every later extractor B, every buffer, every prior
record and every field F outside B's documented exceptions (Delphi clears
bosch_sw_number/bosch_variant/oem_hw_number on a CRD hit; Generic writes
engine_type/engine_code unconditionally on an engine-pattern hit), if F
is non-empty before B runs and B returns a record, F is unchanged. -/
theorem C2_priority_amended (B : ExtStage) (data : List Byte) (r r' : MetadataRecord)
    (F : Fld) (hok : runExt B data r = .ok r') (hexc : ¬ F ∈ extExc B)
    (hne : getF F r ≠ "") : getF F r' = getF F r := by
  cases B
  case ford =>
    injection hok with h; subst h
    rcases extract_ford_w data F r with h | h | ⟨_, he⟩
    · exact absurd h (by simp)
    · exact h
    · exact absurd he hne
  case continental =>
    injection hok with h; subst h
    rcases extract_continental_w data F r with h | h | ⟨_, he⟩
    · exact absurd h (by simp)
    · exact h
    · exact absurd he hne
  case delphi =>
    rcases extract_delphi_w data F r r' hok with h | h | ⟨_, he⟩
    · exact absurd h hexc
    · exact h
    · exact absurd he hne
  case delco =>
    injection hok with h; subst h
    rcases extract_delco_w data F r with h | h | ⟨_, he⟩
    · exact absurd h (by simp)
    · exact h
    · exact absurd he hne
  case transtron =>
    injection hok with h; subst h
    rcases transtronStep_w (reSearch transtron_copyright data).isSome
        (reSearch transtron_engine_part data) F r with h | h | ⟨_, he⟩
    · exact absurd h (by simp)
    · exact h
    · exact absurd he hne
  case bmw =>
    injection hok with h; subst h
    rcases bmwStep_w (reSearch bmw_engine data) F r with h | h | ⟨_, he⟩
    · exact absurd h (by simp)
    · exact h
    · exact absurd he hne
  case mercedes =>
    injection hok with h; subst h
    rcases extract_mercedes_w data F r with h | h | ⟨_, he⟩
    · exact absurd h (by simp)
    · exact h
    · exact absurd he hne
  case generic =>
    rcases extract_generic_w data F r r' hok with h | h | ⟨_, he⟩
    · exact absurd h hexc
    · exact h
    · exact absurd he hne

def c2wbuf : List Byte := strBytes "RK3A-12A650-AB"

def c2wrec : MetadataRecord := { rec0 with sw_version := "V" }

def c2wrec' : MetadataRecord := { rec0 with sw_version := "V", oem_sw_number := "RK3A-12A650-AB" }

/-- Witness for C2 amended: Ford, run after sw_version was already set to
"V", fills oem_sw_number but leaves sw_version unchanged. -/
theorem C2_priority_witness :
    runExt .ford c2wbuf c2wrec = .ok c2wrec' ∧ getF .sv c2wrec' = getF .sv c2wrec :=
  ⟨by decide, C2_priority_amended .ford c2wbuf c2wrec c2wrec' .sv (by decide) (by decide)
    (by decide)⟩

/-- The acceptance rule of the version fallback as the spec words it: a
candidate survives when it is not a substring of any already-found OEM
number string, has no leading zero, is not evenly divisible by 1000, and
is not below 1000. -/
def specVersionAccept (oem_strings : List String) (val : String) : Bool :=
  !(oem_strings.any (fun o => strIn val o)) && !(val.toList.take 1 == ['0'])
  && !(pyIntStr val % 1000 == 0) && !(Nat.blt (pyIntStr val) 1000)

/-- The buffer of the C3 boundary example. -/
def c3buf : List Byte := strBytes "03L907309AE  5000 00123 0999 1396"

/-- C3: the fallback's candidate loop returns exactly the first candidate
in scan order that survives the four rejection filters of the spec (or
empty if none does); on the boundary example, the window scan finds the
four isolated tokens and the fallback selects "1396". -/
theorem C3_version_fallback :
    (∀ (oem_strings : List String) (cands : List (List Byte)),
      versionLoop oem_strings cands
        = (((cands.filterMap decodeAscii).find? (specVersionAccept oem_strings)).getD ""))
  ∧ findall1 version_pattern c3buf
      = [strBytes "5000", strBytes "00123", strBytes "0999", strBytes "1396"]
  ∧ _find_sw_version c3buf [strBytes "03L907309AE"] = "1396" := by
  refine ⟨fun oem_strings cands => ?_, by decide, by decide⟩
  induction cands with
  | nil => rfl
  | cons c rest ih =>
    unfold versionLoop
    cases hd : decodeAscii c with
    | none => rw [List.filterMap_cons_none hd]; exact ih
    | some val =>
      rw [List.filterMap_cons_some hd]
      by_cases h1 : (oem_strings.any (fun o => strIn val o)) = true
      · simp only [h1, if_true, ih, List.find?, specVersionAccept, Bool.not_eq_true',
          Bool.and_eq_true]
        simp [h1]
      · by_cases h2 : (val.toList.take 1 == ['0']) = true
        · simp only [Bool.not_eq_true] at h1
          simp only [h1, Bool.false_eq_true, if_false, h2, if_true, ih, List.find?,
            specVersionAccept]
          simp [h1, h2]
        · by_cases h3 : (pyIntStr val % 1000 == 0) = true
          · simp only [Bool.not_eq_true] at h1 h2
            simp only [h1, h2, Bool.false_eq_true, if_false, h3, if_true, ih, List.find?,
              specVersionAccept]
            simp [h1, h2, h3]
          · by_cases h4 : (Nat.blt (pyIntStr val) 1000) = true
            · simp only [Bool.not_eq_true] at h1 h2 h3
              simp only [h1, h2, h3, Bool.false_eq_true, if_false, h4, if_true, ih,
                List.find?, specVersionAccept]
              simp [h1, h2, h3, h4]
            · simp only [Bool.not_eq_true] at h1 h2 h3 h4
              simp only [h1, h2, h3, h4, Bool.false_eq_true, if_false, List.find?,
                specVersionAccept]
              simp [h1, h2, h3, h4]

theorem StepWrites.not_written {f : MetadataRecord → MetadataRecord} {ws exc : List Fld}
    (h : StepWrites f ws exc) (F : Fld) (hws : ¬ F ∈ ws) (hexc : ¬ F ∈ exc)
    (r : MetadataRecord) : getF F (f r) = getF F r := by
  rcases h F r with h1 | h1 | ⟨h1, _⟩
  · exact absurd h1 hexc
  · exact h1
  · exact absurd h1 hws

/-- Any value the GM calibration loop commits passed the first-8-characters
dummy filter. -/
theorem gmCalLoop_commit (ms : List Caps) : ∀ r : MetadataRecord,
    (gmCalLoop r ms).oem_sw_number = r.oem_sw_number
  ∨ Nat.ble 4 (pyDistinct (((gmCalLoop r ms).oem_sw_number).toList.take 8)) = true := by
  induction ms with
  | nil => intro r; exact Or.inl rfl
  | cons m rest ih =>
    intro r
    unfold gmCalLoop
    (repeat' split) <;> first
      | exact ih r
      | (rename_i hble; exact Or.inr (by simpa using hble))

/-- Any value the Mercedes pair block commits to the hardware field passed
the tail dummy filter. -/
theorem mercHwCommit_commit (hw : String) (r : MetadataRecord) :
    (mercHwCommit hw r).oem_hw_number = r.oem_hw_number
  ∨ Nat.ble 4 (pyDistinct (((mercHwCommit hw r).oem_hw_number).toList.drop 1)) = true := by
  unfold mercHwCommit
  split
  · rename_i hble
    exact Or.inr (by simp_all)
  · exact Or.inl rfl

theorem mercPair_ohn (m : Option Caps) (r : MetadataRecord) :
    (mercPairStep m r).oem_hw_number = r.oem_hw_number
  ∨ Nat.ble 4 (pyDistinct (((mercPairStep m r).oem_hw_number).toList.drop 1)) = true := by
  unfold mercPairStep
  cases m with
  | none => exact Or.inl rfl
  | some mc =>
    dsimp only
    cases h1 : decodeAscii (mgroup mc 1) with
    | none => exact Or.inl rfl
    | some hw =>
      cases h2 : decodeAscii (mgroup mc 2) with
      | none => exact Or.inl rfl
      | some sw =>
        dsimp only
        have hsw := (mercSwCommit_w sw).not_written .ohn (by simp) (by simp)
          (mercHwCommit hw r)
        rcases mercHwCommit_commit hw r with hh | hh
        · exact Or.inl (hsw.trans hh)
        · right
          have hsw2 : (mercSwCommit sw (mercHwCommit hw r)).oem_hw_number
              = (mercHwCommit hw r).oem_hw_number := hsw
          rw [hsw2]
          exact hh

theorem mercFallbackLoop_commit (ms : List Caps) : ∀ r : MetadataRecord,
    (mercFallbackLoop r ms).oem_hw_number = r.oem_hw_number
  ∨ Nat.ble 4 (pyDistinct (((mercFallbackLoop r ms).oem_hw_number).toList.drop 1)) = true := by
  induction ms with
  | nil => intro r; exact Or.inl rfl
  | cons m rest ih =>
    intro r
    unfold mercFallbackLoop
    (repeat' split) <;> first
      | exact ih r
      | (rename_i hble; exact Or.inr (by simpa using hble))

/-- C4 counterexample: the Mercedes fallback populates `oem_hw_number`
with "A2222222345" although its first 8 characters have only 2 distinct
characters — the claim's "discarded exactly when the first 8 characters
contain fewer than 4 distinct characters" does not hold for this
extractor, which tests the characters after the leading 'A' instead. -/
theorem C4_dummy_filter_counterexample :
    (_extract_mercedes (strBytes "A2222222345")
        { rec0 with is_delphi_crd := true }).oem_hw_number = "A2222222345"
  ∧ Nat.blt (pyDistinct ("A2222222345".toList.take 8)) 4 = true := by
  refine ⟨by decide, by decide⟩

/-- C4 amended: each extractor applies its own dummy filter to the
candidate it commits: Delco's gm_cal filter tests the first 8 characters,
while the Mercedes A-number filters test the characters after the leading
'A'; a buffer whose only part-number-shaped token is "22222222FU" leaves
oem_sw_number empty. -/
theorem C4_dummy_filter_amended :
    (∀ (data : List Byte) (r : MetadataRecord),
      (_extract_delco data r).oem_sw_number ≠ r.oem_sw_number →
      Nat.ble 4 (pyDistinct (((_extract_delco data r).oem_sw_number).toList.take 8)) = true)
  ∧ (∀ (data : List Byte) (r : MetadataRecord),
      (_extract_mercedes data r).oem_hw_number ≠ r.oem_hw_number →
      Nat.ble 4 (pyDistinct (((_extract_mercedes data r).oem_hw_number).toList.drop 1)) = true)
  ∧ (_extract_delco (strBytes "xx 22222222FU yy") rec0).oem_sw_number = "" := by
  refine ⟨?_, ?_, by decide⟩
  · intro data r h
    unfold _extract_delco at h ⊢
    dsimp only at h ⊢
    have hosn : getF .osn (delcoHwStep (reSearch delco_hw_part data) r) = getF .osn r :=
      (delcoHwStep_w (reSearch delco_hw_part data)).not_written .osn (by simp) (by simp) r
    by_cases hc : ((delcoHwStep (reSearch delco_hw_part data) r).oem_sw_number == "") = true
    · rw [if_pos hc] at h ⊢
      rcases gmCalLoop_commit (finditerRe delco_gm_cal data)
          (delcoHwStep (reSearch delco_hw_part data) r) with h1 | h1
      · exact absurd (h1.trans hosn) h
      · exact h1
    · rw [if_neg hc] at h ⊢
      exact absurd hosn h
  · intro data r h
    unfold _extract_mercedes at h ⊢
    dsimp only at h ⊢
    by_cases hflag : (!r.is_delphi_crd) = true
    · rw [if_pos hflag] at h
      exact absurd rfl h
    · rw [if_neg hflag] at h ⊢
      by_cases hc : ((mercPairStep (reSearch mercedes_pair data) r).oem_hw_number == "") = true
      · rw [if_pos hc] at h ⊢
        rcases mercFallbackLoop_commit (finditerRe mercedes_part_number data)
            (mercPairStep (reSearch mercedes_pair data) r) with h1 | h1
        · rcases mercPair_ohn (reSearch mercedes_pair data) r with h2 | h2
          · exact absurd (h1.trans h2) h
          · rw [show ((mercFallbackLoop (mercPairStep (reSearch mercedes_pair data) r)
                (finditerRe mercedes_part_number data)).oem_hw_number)
                = (mercPairStep (reSearch mercedes_pair data) r).oem_hw_number from h1]
            exact h2
        · exact h1
      · rw [if_neg hc] at h ⊢
        rcases mercPair_ohn (reSearch mercedes_pair data) r with h2 | h2
        · exact absurd h2 h
        · exact h2

def c4wbuf : List Byte := strBytes "xx 10214106AD yy"

/-- Witness for C4 amended: Delco commits "10214106AD", whose first 8
characters have 5 distinct characters. -/
theorem C4_dummy_filter_witness :
    (_extract_delco c4wbuf rec0).oem_sw_number ≠ rec0.oem_sw_number
  ∧ Nat.ble 4 (pyDistinct (((_extract_delco c4wbuf rec0).oem_sw_number).toList.take 8))
      = true :=
  ⟨by decide, C4_dummy_filter_amended.1 c4wbuf rec0 (by decide)⟩

theorem StepWrites.nonempty_pres {f : MetadataRecord → MetadataRecord} {ws exc : List Fld}
    (h : StepWrites f ws exc) (F : Fld) (hexc : ¬ F ∈ exc) (r : MetadataRecord)
    (hne : getF F r ≠ "") : getF F (f r) = getF F r := by
  rcases h F r with h1 | h1 | ⟨_, h1⟩
  · exact absurd h1 hexc
  · exact h1
  · exact absurd h1 hne

/-- What the CRD block leaves in the record when all three groups of the
last CRD match decode: the Bosch fields are cleared, and ecu_type /
sw_version take the CRD values when they were still empty. -/
theorem delphiCrdStep_fields (ms : List Caps) (mp : Option Caps) (r : MetadataRecord)
    (hms : (ms == []) = false) (crd_ecu crd_engine crd_sw : String)
    (he : decodeAscii (mgroup (ms.getLastD []) 1) = some crd_ecu)
    (hn : decodeAscii (mgroup (ms.getLastD []) 2) = some crd_engine)
    (hs : decodeAscii (mgroup (ms.getLastD []) 3) = some crd_sw) :
    (delphiCrdStep ms mp r).bosch_sw_number = ""
  ∧ (delphiCrdStep ms mp r).bosch_variant = ""
  ∧ (r.ecu_type = "" → (delphiCrdStep ms mp r).ecu_type = crd_ecu)
  ∧ (r.sw_version = "" → (delphiCrdStep ms mp r).sw_version = crd_sw) := by
  unfold delphiCrdStep
  rw [if_pos (by simp [hms])]
  unfold crdApply
  rw [he, hn, hs]
  dsimp only
  have hbsn : ∀ y, (crdPowerCommit mp (crdClear y)).bosch_sw_number = "" := fun y =>
    ((crdPowerCommit_w mp).not_written .bsn (by simp) (by simp) (crdClear y)).trans rfl
  have hbv : ∀ y, (crdPowerCommit mp (crdClear y)).bosch_variant = "" := fun y =>
    ((crdPowerCommit_w mp).not_written .bv (by simp) (by simp) (crdClear y)).trans rfl
  refine ⟨hbsn _, hbv _, ?_, ?_⟩
  · intro h0
    have e1 := (crdPowerCommit_w mp).not_written .et (by simp) (by simp)
      (crdClear (crdSetEngine crd_engine (crdSetSw crd_sw
        (crdSetEcu crd_ecu { r with is_delphi_crd := true }))))
    have e2 := (crdSetEngine_w crd_engine).not_written .et (by simp) (by simp)
      (crdSetSw crd_sw (crdSetEcu crd_ecu { r with is_delphi_crd := true }))
    have e3 := (crdSetSw_w crd_sw).not_written .et (by simp) (by simp)
      (crdSetEcu crd_ecu { r with is_delphi_crd := true })
    have e4 : (crdSetEcu crd_ecu { r with is_delphi_crd := true }).ecu_type = crd_ecu := by
      unfold crdSetEcu
      rw [if_pos (by simp [h0])]
    exact e1.trans (e2.trans (e3.trans e4))
  · intro h0
    have e1 := (crdPowerCommit_w mp).not_written .sv (by simp) (by simp)
      (crdClear (crdSetEngine crd_engine (crdSetSw crd_sw
        (crdSetEcu crd_ecu { r with is_delphi_crd := true }))))
    have e2 := (crdSetEngine_w crd_engine).not_written .sv (by simp) (by simp)
      (crdSetSw crd_sw (crdSetEcu crd_ecu { r with is_delphi_crd := true }))
    have e3 : (crdSetSw crd_sw (crdSetEcu crd_ecu
        { r with is_delphi_crd := true })).sw_version = crd_sw := by
      have e0 : (crdSetEcu crd_ecu { r with is_delphi_crd := true }).sw_version
          = r.sw_version :=
        (crdSetEcu_w crd_ecu).not_written .sv (by simp) (by simp)
          { r with is_delphi_crd := true }
      unfold crdSetSw
      rw [if_pos (by rw [e0]; simpa using h0)]
    exact e1.trans (e2.trans e3)

/-- The fields of a successful `_extract_delphi` run on a buffer with a
CRD signature whose last match fully decodes. -/
theorem extract_delphi_crd (data : List Byte) (r3 r4 : MetadataRecord)
    (hok : _extract_delphi data r3 = .ok r4)
    (hcrd : (finditerRe delphi_crd data == []) = false)
    (crd_ecu crd_engine crd_sw : String)
    (he : decodeAscii (mgroup ((finditerRe delphi_crd data).getLastD []) 1) = some crd_ecu)
    (hn : decodeAscii (mgroup ((finditerRe delphi_crd data).getLastD []) 2) = some crd_engine)
    (hs : decodeAscii (mgroup ((finditerRe delphi_crd data).getLastD []) 3) = some crd_sw)
    (hsw : ¬ crd_sw = "") :
    r4.bosch_sw_number = "" ∧ r4.bosch_variant = ""
  ∧ (r3.ecu_type = "" → r4.ecu_type = crd_ecu)
  ∧ (r3.sw_version = "" → r4.sw_version = crd_sw) := by
  unfold _extract_delphi at hok
  rw [show dictGet DELPHI_PATTERNS "deliv_ext"
        = Except.error (.keyError "deliv_ext") from rfl] at hok
  dsimp only at hok
  split at hok
  · simp at hok
  · injection hok with h2
    subst h2
    have hf := delphiCrdStep_fields (finditerRe delphi_crd data)
      (reSearch delphi_crd_power data) r3 (by simpa using hcrd) crd_ecu crd_engine crd_sw
      he hn hs
    have hdel := delphiDelivStep_w (finditerRe delphi_deliv data)
    refine ⟨?_, ?_, ?_, ?_⟩
    · exact (hdel.not_written .bsn (by simp) (by simp) _).trans hf.1
    · exact (hdel.not_written .bv (by simp) (by simp) _).trans hf.2.1
    · intro h0
      exact (hdel.not_written .et (by simp) (by simp) _).trans (hf.2.2.1 h0)
    · intro h0
      have hcs := hf.2.2.2 h0
      have := hdel.nonempty_pres .sv (by simp)
        (delphiCrdStep (finditerRe delphi_crd data) (reSearch delphi_crd_power data) r3)
        (by simp only [getF]; rw [hcs]; exact hsw)
      exact this.trans hcs

/-- Preservation of the delphi-produced fields through the rest of the
chain: Delco, Transtron, BMW and Mercedes never touch the Bosch fields or
ecu_type, and Generic preserves them too; sw_version survives when
non-empty. -/
theorem pipeAfter_pres (data : List Byte) (r4 r' : MetadataRecord)
    (hok : _extract_generic data (_extract_mercedes data (_extract_bmw data
      (_extract_transtron data (_extract_delco data r4)))) = .ok r') :
    r'.bosch_sw_number = r4.bosch_sw_number
  ∧ r'.bosch_variant = r4.bosch_variant
  ∧ r'.ecu_type = r4.ecu_type
  ∧ (r4.sw_version ≠ "" → r'.sw_version = r4.sw_version) := by
  have ht : StepWrites (_extract_transtron data) [.enc, .osn] [] :=
    fun F r => transtronStep_w (reSearch transtron_copyright data).isSome
      (reSearch transtron_engine_part data) F r
  have hb : StepWrites (_extract_bmw data) [.enc] [] :=
    fun F r => bmwStep_w (reSearch bmw_engine data) F r
  have hchain : StepWrites (fun r => _extract_mercedes data (_extract_bmw data
      (_extract_transtron data (_extract_delco data r))))
      ([.ohn, .osn] ++ ([.enc, .osn] ++ ([.enc] ++ [.ohn, .osn])))
      ([] ++ ([] ++ ([] ++ []))) :=
    (extract_delco_w data).comp (ht.comp (hb.comp (extract_mercedes_w data)))
  have hX : ∀ F, ¬ F ∈ ([.ohn, .osn] ++ ([.enc, .osn] ++ ([.enc] ++ [.ohn, .osn]))) →
      getF F (_extract_mercedes data (_extract_bmw data
        (_extract_transtron data (_extract_delco data r4)))) = getF F r4 :=
    fun F hF => hchain.not_written F hF (by simp) r4
  have hgen := extract_generic_w data
  refine ⟨?_, ?_, ?_, ?_⟩
  · rcases hgen .bsn _ r' hok with h | h | ⟨h, _⟩
    · simp at h
    · exact h.trans (hX .bsn (by simp))
    · simp at h
  · rcases hgen .bv _ r' hok with h | h | ⟨h, _⟩
    · simp at h
    · exact h.trans (hX .bv (by simp))
    · simp at h
  · rcases hgen .et _ r' hok with h | h | ⟨h, _⟩
    · simp at h
    · exact h.trans (hX .et (by simp))
    · simp at h
  · intro hne
    have hXsv := hX .sv (by simp)
    rcases hgen .sv _ r' hok with h | h | ⟨_, h⟩
    · simp at h
    · exact h.trans hXsv
    · rw [hXsv] at h
      exact absurd h hne

/-- The buffer of the C5 counterexample: the Bosch software-number
pattern, a Continental ECU type, a Delphi CRD signature, and a VAG OEM
number (which keeps the engine from the missing-key crashes). -/
def c5cebuf : List Byte := strBytes "1037394113 SID307 CRD2-651-TMABDD11 03L906012AB"

/-- C5 counterexample: the buffer contains both a Bosch software-number
match and a valid Delphi CRD signature, yet the final record's ecu_type
is "SID307" (set earlier by the Continental extractor), not the CRD
match's "CRD2" — the claim's "ecu_type ... populated from the CRD match"
fails as a universal statement. -/
theorem C5_crd_retraction_counterexample :
    (reSearch bosch_sw_number_re c5cebuf).isSome = true
  ∧ ((finditerRe delphi_crd c5cebuf).map (fun m => decodeAscii (mgroup m 1)))
      = [some "CRD2"]
  ∧ (binExtract c5cebuf).map (fun r => r.ecu_type) = .ok "SID307" := by
  refine ⟨by decide, by decide, by decide⟩

/-- C5 amended: on every buffer with a Delphi CRD signature (whose last
match decodes and has a non-empty software group), a completed extraction
ends with bosch_sw_number and bosch_variant empty, and ecu_type /
sw_version are the CRD values provided the extractors before Delphi had
left them empty. -/
theorem C5_crd_retraction_amended (data : List Byte) (r' : MetadataRecord)
    (crd_ecu crd_engine crd_sw : String)
    (hok : binExtract data = .ok r')
    (hcrd : (finditerRe delphi_crd data == []) = false)
    (he : decodeAscii (mgroup ((finditerRe delphi_crd data).getLastD []) 1) = some crd_ecu)
    (hn : decodeAscii (mgroup ((finditerRe delphi_crd data).getLastD []) 2) = some crd_engine)
    (hs : decodeAscii (mgroup ((finditerRe delphi_crd data).getLastD []) 3) = some crd_sw)
    (hsw : ¬ crd_sw = "") :
    r'.bosch_sw_number = "" ∧ r'.bosch_variant = ""
  ∧ ((stage3 data rec0).ecu_type = "" → r'.ecu_type = crd_ecu)
  ∧ ((stage3 data rec0).sw_version = "" → r'.sw_version = crd_sw) := by
  unfold binExtract pipeFromDelphi at hok
  split at hok
  · simp at hok
  · rename_i r4 heq4
    have hdel := extract_delphi_crd data (stage3 data rec0) r4 heq4 hcrd
      crd_ecu crd_engine crd_sw he hn hs hsw
    have hsuf := pipeAfter_pres data r4 r' hok
    refine ⟨hsuf.1.trans hdel.1, hsuf.2.1.trans hdel.2.1, ?_, ?_⟩
    · intro h0
      exact hsuf.2.2.1.trans (hdel.2.2.1 h0)
    · intro h0
      have hv := hdel.2.2.2 h0
      refine (hsuf.2.2.2 ?_).trans hv
      rw [hv]
      exact hsw

def c5wbuf : List Byte := strBytes "1037394113 CRD2-651-TMABDD11 03L906012AB"

def c5wrec : MetadataRecord :=
  { sw_version := "TMABDD11", bosch_sw_number := "", bosch_variant := "",
    oem_hw_number := "", oem_sw_number := "03L906012AB", ecu_type := "CRD2",
    engine_type := "", engine_code := "OM651", is_delphi_crd := false }

/-- Witness for C5 amended: on a Bosch + CRD buffer where nothing earlier
set ecu_type or sw_version, the final record has the Bosch fields cleared
and the CRD values committed. -/
theorem C5_crd_retraction_witness :
    c5wrec.bosch_sw_number = "" ∧ c5wrec.bosch_variant = ""
  ∧ c5wrec.ecu_type = "CRD2" ∧ c5wrec.sw_version = "TMABDD11" := by
  have h := C5_crd_retraction_amended c5wbuf c5wrec "CRD2" "651" "TMABDD11"
    (by decide) (by decide) (by decide) (by decide) (by decide) (by decide)
  exact ⟨h.1, h.2.1, h.2.2.1 (by decide), h.2.2.2 (by decide)⟩

/-- C6: the Flex-form name is detected as Flex and yields make "Ford",
date "20260204" and read method "Normal Read-OBD"; the underscore name is
detected as Autotuner and yields make "Volkswagen" and read method
"Normal Read-OBD" — for any current date. -/
theorem C6_filename_examples (today : String) :
    is_flex_filename "fomoco-delphi-dcm3.5-obd-maps-xyz-20260204104420.bin" = true
  ∧ (parse_filename today "fomoco-delphi-dcm3.5-obd-maps-xyz-20260204104420.bin").make
      = "Ford"
  ∧ (parse_filename today "fomoco-delphi-dcm3.5-obd-maps-xyz-20260204104420.bin").date
      = "20260204"
  ∧ (parse_filename today "fomoco-delphi-dcm3.5-obd-maps-xyz-20260204104420.bin").read_method
      = "Normal Read-OBD"
  ∧ is_flex_filename "Volkswagen_Golf_2008_PCR2_1_OBD_NR.bin" = false
  ∧ (parse_filename today "Volkswagen_Golf_2008_PCR2_1_OBD_NR.bin").make = "Volkswagen"
  ∧ (parse_filename today "Volkswagen_Golf_2008_PCR2_1_OBD_NR.bin").read_method
      = "Normal Read-OBD" :=
  ⟨by decide, rfl, rfl, rfl, by decide, rfl, rfl⟩

/-- The merge the spec describes for `parseFile`: the filename fields
plus the six binary-derived fields, with the binary ecu_type overriding
the filename-derived ecu when non-empty. -/
def mergedRecord (parsed : ParsedName) (m : MetadataRecord) : ParsedBin :=
  { make := parsed.make, model := parsed.model, engine := parsed.engine,
    ecu := if m.ecu_type = "" then parsed.ecu else m.ecu_type,
    date := parsed.date, mileage := parsed.mileage,
    registration := parsed.registration, read_method := parsed.read_method,
    sw_version := m.sw_version, bosch_sw_number := m.bosch_sw_number,
    oem_hw_number := m.oem_hw_number, oem_sw_number := m.oem_sw_number,
    engine_code := m.engine_code, engine_type := m.engine_type }

/-- The filename fields with the six binary fields left empty. -/
def emptyBinFields (parsed : ParsedName) : ParsedBin :=
  { make := parsed.make, model := parsed.model, engine := parsed.engine,
    ecu := parsed.ecu, date := parsed.date, mileage := parsed.mileage,
    registration := parsed.registration, read_method := parsed.read_method,
    sw_version := "", bosch_sw_number := "", oem_hw_number := "",
    oem_sw_number := "", engine_code := "", engine_type := "" }

def c7fs : String → Option (List Byte) :=
  fun p => if p == "x.hex" then some (strBytes "CRD2-651-TMABDD11 03L906012AB") else none

/-- C7 counterexample: for the existing file "x.hex", `extract` succeeds
with sw_version "TMABDD11", but `parse_bin_file` leaves sw_version empty
because the path does not end in ".bin" — so the result is not
parse_filename merged with extract's binary fields for every filePath. -/
theorem C7_parse_bin_counterexample :
    lowerEndsBin "x.hex" = false
  ∧ (read_bin_metadata c7fs "x.hex").map (fun m => m.sw_version) = .ok "TMABDD11"
  ∧ (parse_bin_file "20990101" c7fs "x.hex").map (fun p => p.sw_version) = .ok "" := by
  refine ⟨by decide, by decide, by decide⟩

/-- C7 amended: the merge happens exactly for paths whose lowercased form
ends in ".bin" and which the filesystem reports as existing; for all
other paths the six binary fields are left empty and the ecu is the
filename-derived one. -/
theorem C7_parse_bin_amended (today : String) (fs : String → Option (List Byte))
    (path : String) (m : MetadataRecord) :
    (lowerEndsBin path = true → (fs path).isSome = true →
      read_bin_metadata fs path = .ok m →
      parse_bin_file today fs path
        = .ok (mergedRecord (parse_filename today (pyBasename path)) m))
  ∧ (lowerEndsBin path = false ∨ (fs path).isSome = false →
      parse_bin_file today fs path
        = .ok (emptyBinFields (parse_filename today (pyBasename path)))) := by
  constructor
  · intro h1 h2 h3
    unfold parse_bin_file
    rw [if_pos (by rw [h1, h2]; rfl), h3]
    dsimp only
    by_cases het : m.ecu_type = ""
    · rw [if_neg (by simp [het])]
      simp [mergedRecord, het]
    · rw [if_pos (by simp [het])]
      simp [mergedRecord, het]
  · intro h
    unfold parse_bin_file
    rw [if_neg (by rcases h with h | h <;> simp [h])]
    rfl

def c7wfs : String → Option (List Byte) :=
  fun p => if p == "dir/y.bin" then some (strBytes "CRD2-651-TMABDD11 03L906012AB") else none

def c7wm : MetadataRecord :=
  { sw_version := "TMABDD11", bosch_sw_number := "", bosch_variant := "",
    oem_hw_number := "", oem_sw_number := "03L906012AB", ecu_type := "CRD2",
    engine_type := "", engine_code := "OM651", is_delphi_crd := false }

/-- Witness for C7 amended: an existing .bin path is parsed and merged,
with the binary ecu_type "CRD2" overriding the filename-derived ecu. -/
theorem C7_parse_bin_witness :
    parse_bin_file "20990101" c7wfs "dir/y.bin"
      = .ok (mergedRecord (parse_filename "20990101" (pyBasename "dir/y.bin")) c7wm)
  ∧ (mergedRecord (parse_filename "20990101" (pyBasename "dir/y.bin")) c7wm).ecu = "CRD2" :=
  ⟨(C7_parse_bin_amended "20990101" c7wfs "dir/y.bin" c7wm).1
      (by decide) (by decide) (by decide),
    by decide⟩

def eraseDate (p : ParsedName) : ParsedName := { p with date := "" }

/-- C8 counterexample: `parse_filename` is not a pure function of the
filename alone — the same Autotuner name parsed on two different days
yields different dicts (the date field defaults to the current date). -/
theorem C8_purity_counterexample :
    parse_filename "20260101" "Volkswagen_Golf_2008_PCR2_1_OBD_NR.bin"
      ≠ parse_filename "20260102" "Volkswagen_Golf_2008_PCR2_1_OBD_NR.bin" := by
  decide

/-- C8 amended: `parse_filename` depends only on the filename and the
current date; every field other than date depends on the filename alone,
and the date either defaults to the current date or is recovered from the
name's timestamp (in which case it is time-independent). -/
theorem C8_purity_amended (t1 t2 name : String) :
    eraseDate (parse_filename t1 name) = eraseDate (parse_filename t2 name)
  ∧ ((parse_filename t1 name).date = t1
      ∨ (parse_filename t1 name).date = (parse_filename t2 name).date) := by
  unfold parse_filename
  split
  · unfold parse_flex_filename flexDate eraseDate
    dsimp only
    cases h : findTimestampIdx (pySplit '-' (stripBinName name)) with
    | some i =>
      constructor
      · split <;> rfl
      · right
        split <;> rfl
    | none =>
      constructor
      · split <;> rfl
      · left
        split <;> rfl
  · unfold eraseDate
    dsimp only
    exact ⟨rfl, Or.inl rfl⟩

def c9name : String := "20260204104420-delphi-dcm3.5-obd"

/-- C9 counterexample: with the timestamp as the first part (index 0),
the claim says the metadata region is the (empty) list of parts strictly
before it, which would leave make empty; but `parts[:timestamp_idx] if
timestamp_idx else parts` treats index 0 as falsy, keeps all parts, and
make becomes the timestamp string itself. -/
theorem C9_flex_timestamp_counterexample :
    findTimestampIdx (pySplit '-' (stripBinName c9name)) = some 0
  ∧ flexMetaParts (pySplit '-' (stripBinName c9name)) = pySplit '-' (stripBinName c9name)
  ∧ pySplit '-' (stripBinName c9name) ≠ []
  ∧ (parse_flex_filename "20990101" c9name).make = "20260204104420" := by
  refine ⟨by decide, by decide, by decide, by decide⟩

/-- C9 amended: when the timestamp scan hits index i, the date is the
token's first 8 characters; the metadata region is the parts strictly
before the token when i is non-zero, but the whole list of parts when
i = 0 (the falsy-index slip). -/
theorem C9_flex_timestamp_amended (today name : String) (i : Nat)
    (h : findTimestampIdx (pySplit '-' (stripBinName name)) = some i) :
    (parse_flex_filename today name).date
      = (((pySplit '-' (stripBinName name)).getD i "").toList.take 8).asString
  ∧ flexMetaParts (pySplit '-' (stripBinName name))
      = (if i == 0 then pySplit '-' (stripBinName name)
         else (pySplit '-' (stripBinName name)).take i) := by
  constructor
  · unfold parse_flex_filename flexDate
    dsimp only
    rw [h]
    split <;> rfl
  · unfold flexMetaParts
    rw [h]

def c9wname : String := "fomoco-delphi-dcm3.5-obd-maps-xyz-20260204104420"

/-- Witness for C9 amended at timestamp index 6. -/
theorem C9_flex_timestamp_witness :
    findTimestampIdx (pySplit '-' (stripBinName c9wname)) = some 6
  ∧ ((parse_flex_filename "20990101" c9wname).date
      = (((pySplit '-' (stripBinName c9wname)).getD 6 "").toList.take 8).asString
    ∧ flexMetaParts (pySplit '-' (stripBinName c9wname))
      = (if (6 : Nat) == 0 then pySplit '-' (stripBinName c9wname)
         else (pySplit '-' (stripBinName c9wname)).take 6)) :=
  ⟨by decide, C9_flex_timestamp_amended "20990101" c9wname 6 (by decide)⟩

/-- C10: the parser's normalization deletes every occurrence of ".bin"
and ".BIN" by plain string replacement — an interior ".bin" is deleted
and changes the parsed tokens ("my.binary_x" tokenizes as "myary", "x"),
while a mixed-case ".Bin" is not removed at all. -/
theorem C10_strip_bin (today : String) :
    stripBinName "my.binary_x" = "myary_x"
  ∧ (parse_filename today "my.binary_x").make = "myary"
  ∧ (parse_filename today "my.binary_x").model = "x"
  ∧ stripBinName "a.binb.binc" = "abc"
  ∧ stripBinName "Ford_Focus.Bin" = "Ford_Focus.Bin"
  ∧ (parse_filename today "Ford_Focus.Bin").model = "Focus.Bin" :=
  ⟨by decide, rfl, rfl, by decide, by decide, rfl⟩
